import Mathlib

/-!
Verification of the delta-to-entity translation pipeline of the
signalk-ha-bridge repository.

The development shallowly embeds the pipeline found in
src/signalk-ha-bridge/src/index.js (delta handler, expandObjectPaths),
the converged SensorConverter (src/unnamed/part_001: getSensorConfig,
autoGenerateConfig, inferFromMeta, smartRound, convertValue,
unitToDeviceClass), the HADiscovery class of
src/signalk-ha-bridge/src/signalk-parser.js (publishDiscovery and the
topic helpers) and the DeviceRegistry lookups used by them.

Modelling conventions:
* JavaScript numbers are modelled as exact decimal fixed-point values
  (an integer mantissa scaled by a power of ten).  Every numeric literal
  appearing in the pipeline and in the properties under scrutiny is a
  decimal fraction, and at those inputs the rounding noise of IEEE-754
  doubles never crosses a toFixed / toString decision boundary, so the
  decimal model produces the same observable strings as the source.
* Fallible JavaScript expressions (Date#toISOString on an invalid date,
  Number#toFixed on a non-number) are modelled in an Except monad; the
  try/catch wrapping the delta handler becomes an explicit abandon flag.
* Mutable process state (discoveredSensors, lastPublishTime,
  deviceRegistryReady) is threaded explicitly through a state record.
-/

namespace SKB

/-! ## Generic string helpers (kernel-computable stand-ins for the
JavaScript string operations used by the source) -/

/-- Substring test on character lists: JavaScript String#includes. -/
def listContainsSub : List Char → List Char → Bool
  | _, [] => true
  | [], _ :: _ => false
  | a :: as, b :: bs => (List.isPrefixOf (b :: bs) (a :: as)) || listContainsSub as (b :: bs)

/-- JavaScript String#includes. -/
def strContains (s sub : String) : Bool := listContainsSub s.data sub.data

/-- Split a character list at dots: JavaScript String#split with a dot. -/
def splitOnDot : List Char → List (List Char)
  | [] => [[]]
  | c :: rest =>
    let r := splitOnDot rest
    if c = '.' then [] :: r
    else
      match r with
      | [] => [[c]]
      | g :: gs => (c :: g) :: gs

/-- Character of a decimal digit. -/
def digitChar (n : ℕ) : Char := Char.ofNat (48 + n)

/-- Decimal digits of a natural number, most significant first.  The
first argument is structural fuel; any fuel above the number of digits
gives the exact digit list. -/
def natDigitsAux : ℕ → ℕ → List Char
  | 0, _ => []
  | _ + 1, 0 => []
  | fuel + 1, n => natDigitsAux fuel (n / 10) ++ [digitChar (n % 10)]

/-- Decimal rendering of a natural number. -/
def natToStr (n : ℕ) : String := if n = 0 then "0" else ⟨natDigitsAux (n + 1) n⟩

/-- Left-pad a digit list with zeros up to the given length. -/
def padLeftZeros (len : ℕ) (s : List Char) : List Char :=
  List.replicate (len - s.length) '0' ++ s

/-- Fixed-width decimal rendering of a natural number. -/
def natToStrPad (width n : ℕ) : String :=
  ⟨padLeftZeros width (natDigitsAux (n + 1) n)⟩

/-! ## Decimal numbers

A DecNum with mantissa m and scale e denotes the rational number
m / 10 ^ e.  This is the exact-decimal model of a JavaScript number. -/

/-- Ten to the given power, on naturals. -/
def pow10 (e : ℕ) : ℕ := 10 ^ e

/-- Exact decimal fixed-point number: the value m / 10 ^ e. -/
structure DecNum where
  m : ℤ
  e : ℕ
  deriving DecidableEq, Repr

/-- DecNum of an integer. -/
def DecNum.ofInt (n : ℤ) : DecNum := ⟨n, 0⟩

/-- Exact subtraction of decimal numbers. -/
def DecNum.sub (a b : DecNum) : DecNum :=
  let e := max a.e b.e
  ⟨a.m * (pow10 (e - a.e) : ℕ) - b.m * (pow10 (e - b.e) : ℕ), e⟩

/-- Exact multiplication of decimal numbers. -/
def DecNum.mul (a b : DecNum) : DecNum := ⟨a.m * b.m, a.e + b.e⟩

/-- Division truncated to twenty fractional digits.  The pipeline only
divides in the Fahrenheit-to-Celsius entry of the unit table, which no
property under scrutiny exercises; the truncation models the finite
precision of the double division there. -/
def DecNum.divApprox (a b : DecNum) : DecNum :=
  ⟨Int.tdiv (a.m * (pow10 (b.e + 20) : ℕ)) (b.m * (pow10 a.e : ℕ)), 20⟩

/-- The integer n minimizing the distance from n / 10 ^ f to the value,
larger n on ties: the rounding of JavaScript Number#toFixed. -/
def DecNum.toFixedInt (a : DecNum) (f : ℕ) : ℤ :=
  Int.fdiv (2 * a.m * (pow10 f : ℕ) + (pow10 a.e : ℕ)) (2 * (pow10 a.e : ℕ))

/-- The value rounded to f decimal places, as a decimal number: models
Number applied to the string produced by toFixed. -/
def DecNum.roundToFixed (a : DecNum) (f : ℕ) : DecNum := ⟨a.toFixedInt f, f⟩

/-- Drop trailing decimal zeros from a mantissa/scale pair. -/
def stripZeros : ℤ → ℕ → ℤ × ℕ
  | m, 0 => (m, 0)
  | m, e + 1 => if Int.emod m 10 = 0 then stripZeros (Int.ediv m 10) e else (m, e + 1)

/-- Decimal rendering of a decimal number without trailing zeros and
without a superfluous decimal point: Number#toString on values whose
double has an exact decimal shortest representation (every value the
pipeline produces at the inputs under scrutiny).  The exponential
notation JavaScript switches to below 1e-7 or at 1e21 is outside the
modelled range. -/
def DecNum.render (a : DecNum) : String :=
  let p := stripZeros a.m a.e
  let m := p.1
  let e := p.2
  let sign := if m < 0 then "-" else ""
  if e = 0 then sign ++ natToStr m.natAbs
  else sign ++ natToStr (m.natAbs / pow10 e) ++ "." ++ natToStrPad e (m.natAbs % pow10 e)

/-- Rendering with exactly f decimal places: Number#toFixed as a string
(for the f greater than zero used by the source). -/
def DecNum.toFixedStr (a : DecNum) (f : ℕ) : String :=
  let n := a.toFixedInt f
  let sign := if n < 0 then "-" else ""
  sign ++ natToStr (n.natAbs / pow10 f) ++ "." ++ natToStrPad f (n.natAbs % pow10 f)

/-- Whether the absolute value is at most the given natural bound. -/
def DecNum.absLe (a : DecNum) (bound : ℕ) : Bool :=
  a.m.natAbs ≤ bound * pow10 a.e

/-- Truncation toward zero to an integer: the ToInteger coercion applied
by the Date constructor to its millisecond argument. -/
def DecNum.truncInt (a : DecNum) : ℤ := Int.tdiv a.m (pow10 a.e : ℕ)

/-! ## JavaScript values -/

/-- A JavaScript number: NaN, an infinity, or a finite decimal value. -/
inductive JSNum where
  | nan
  | posInf
  | negInf
  | fin (d : DecNum)
  deriving DecidableEq, Repr

/-- JavaScript isFinite. -/
def JSNum.isFinite : JSNum → Bool
  | .fin _ => true
  | _ => false

/-- JavaScript Number#toString. -/
def JSNum.render : JSNum → String
  | .nan => "NaN"
  | .posInf => "Infinity"
  | .negInf => "-Infinity"
  | .fin d => d.render

/-- A JSON-shaped JavaScript value as it appears in a delta message. -/
inductive JSValue where
  | null
  | undefined
  | bool (b : Bool)
  | num (n : JSNum)
  | str (s : String)
  | obj (fields : List (String × JSValue))
  | arr (elems : List JSValue)
  deriving Repr

/-- Decidable equality of modelled exception results, used to settle
concrete converter outcomes. -/
instance instDecEqExcept {α β : Type} [DecidableEq α] [DecidableEq β] :
    DecidableEq (Except α β) := fun a b =>
  match a, b with
  | .ok x, .ok y =>
    if h : x = y then .isTrue (by rw [h]) else .isFalse (by simp [h])
  | .error x, .error y =>
    if h : x = y then .isTrue (by rw [h]) else .isFalse (by simp [h])
  | .ok _, .error _ => .isFalse (by simp)
  | .error _, .ok _ => .isFalse (by simp)

/-- Whether a value is null or undefined (the strict-equality guard at
the head of convertValue). -/
def JSValue.isNullish : JSValue → Bool
  | .null | .undefined => true
  | _ => false

/-- JavaScript truthiness. -/
def JSValue.truthy : JSValue → Bool
  | .null | .undefined => false
  | .bool b => b
  | .num .nan => false
  | .num (.fin d) => d.m ≠ 0
  | .num _ => true
  | .str s => s ≠ ""
  | .obj _ | .arr _ => true

/-- Whether typeof gives the string object (null is excluded because the
source tests it before every typeof guard the model reaches). -/
def JSValue.isObjectType : JSValue → Bool
  | .obj _ | .arr _ => true
  | _ => false

/-- Property read: undefined for a missing member or a non-object. -/
def JSValue.getField : JSValue → String → JSValue
  | .obj fields, k => (fields.lookup k).getD .undefined
  | _, _ => .undefined

/-- Whether a member value counts as a plain scalar for the expansion
test in expandObjectPaths: number, string, boolean or null. -/
def JSValue.isSimpleMember : JSValue → Bool
  | .num _ | .str _ | .bool _ | .null => true
  | _ => false

/-! ## Configuration and metadata records -/

/-- The meta object accompanying a delta value; units is its optional
units member. -/
structure MetaInfo where
  units : Option String
  deriving DecidableEq, Repr

/-- A sensor configuration, either from the static table or
auto-generated.  The enabled field distinguishes an absent member from
explicit true and false because the source compares with strict
equality against false. -/
structure SensorConfig where
  enabled : Option Bool
  name : String
  deviceClass : Option String
  unit : Option String
  icon : Option String
  deriving DecidableEq, Repr

/-- Truthiness of an optional string member (absent and empty are both
falsy in the source's guards). -/
def optTruthy : Option String → Bool
  | none => false
  | some s => s ≠ ""

/-- One row of the unit table: device class, target unit, and the
numeric transform to the target unit. -/
structure UnitMapping where
  deviceClass : Option String
  targetUnit : String
  convert : DecNum → DecNum

/-- The unitToDeviceClass table of the SensorConverter constructor,
keyed by meta.units. -/
def unitToDeviceClass (u : String) : Option UnitMapping :=
  if u = "K" then some ⟨some "temperature", "°C", fun v => v.sub ⟨27315, 2⟩⟩
  else if u = "°C" then some ⟨some "temperature", "°C", fun v => v⟩
  else if u = "C" then some ⟨some "temperature", "°C", fun v => v⟩
  else if u = "°F" then
    some ⟨some "temperature", "°C", fun v => ((v.sub ⟨32, 0⟩).mul ⟨5, 0⟩).divApprox ⟨9, 0⟩⟩
  else if u = "F" then
    some ⟨some "temperature", "°C", fun v => ((v.sub ⟨32, 0⟩).mul ⟨5, 0⟩).divApprox ⟨9, 0⟩⟩
  else if u = "m/s" then some ⟨none, "m/s", fun v => v⟩
  else if u = "m" then some ⟨some "distance", "m", fun v => v⟩
  else if u = "rad" then some ⟨none, "°", fun v => v.mul ⟨5729577951308232, 14⟩⟩
  else if u = "V" then some ⟨some "voltage", "V", fun v => v⟩
  else if u = "A" then some ⟨some "current", "A", fun v => v⟩
  else if u = "Pa" then some ⟨some "pressure", "Pa", fun v => v⟩
  else none

/-- The pathIcons table of the SensorConverter constructor, in
declaration order. -/
def pathIcons : List (String × String) :=
  [("temperature", "mdi:thermometer"),
   ("speedOverGround", "mdi:speedometer"),
   ("speedThroughWater", "mdi:speedometer-medium"),
   ("wind", "mdi:weather-windy"),
   ("depth", "mdi:waves"),
   ("heading", "mdi:compass"),
   ("course", "mdi:compass"),
   ("angle", "mdi:compass"),
   ("voltage", "mdi:flash"),
   ("current", "mdi:current-ac"),
   ("pressure", "mdi:gauge"),
   ("position", "mdi:crosshairs-gps"),
   ("satellites", "mdi:satellite-variant")]

/-! ## SensorConverter: name generation and metadata inference -/

/-- Uppercase the first character of a word: the charAt-toUpperCase
composition of generateFriendlyName. -/
def capitalizeWord : List Char → List Char
  | [] => []
  | c :: cs => c.toUpper :: cs

/-- Insert a space before each ASCII capital: the regex replacement of
generateFriendlyName. -/
def spaceBeforeCapitals (cs : List Char) : List Char :=
  cs.flatMap fun c => if c.isUpper then [' ', c] else [c]

/-- Trim ASCII spaces from both ends, as String#trim does to the only
whitespace this pipeline can produce. -/
def trimSpaces (cs : List Char) : List Char :=
  ((cs.dropWhile (· = ' ')).reverse.dropWhile (· = ' ')).reverse

/-- generateFriendlyName of the SensorConverter: keep the trailing two
dot-separated segments, capitalize each, split camel case with spaces,
and join with a space. -/
def generateFriendlyName (signalkPath : String) : String :=
  let parts := splitOnDot signalkPath.data
  let relevantParts := parts.drop (parts.length - 2)
  String.intercalate " "
    (relevantParts.map fun part =>
      ⟨trimSpaces (spaceBeforeCapitals (capitalizeWord part))⟩)

/-- Lowercase rendering of a path for the icon keyword search. -/
def strToLower (s : String) : String := ⟨s.data.map Char.toLower⟩

/-- inferFromMeta of the SensorConverter: device class and target unit
from the unit table (with the wind and speed disambiguation of the
metre-per-second row), icon from the first matching pathIcons keyword,
toggle icon for booleans. -/
def inferFromMeta (signalkPath : String) (value : JSValue) (meta : Option MetaInfo) :
    Option String × Option String × String :=
  let metaUnits := meta.bind (·.units)
  let base : Option String × Option String :=
    match metaUnits with
    | some u =>
      match unitToDeviceClass u with
      | some mapping =>
        let deviceClass :=
          if u = "m/s" then
            if strContains signalkPath "wind" then some "wind_speed"
            else if strContains signalkPath "speed" then some "speed"
            else mapping.deviceClass
          else mapping.deviceClass
        (deviceClass, some mapping.targetUnit)
      | none => (none, none)
    | none => (none, none)
  let icon :=
    match pathIcons.find? (fun p => strContains (strToLower signalkPath) p.1) with
    | some p => p.2
    | none => "mdi:gauge"
  let icon := match value with | .bool _ => "mdi:toggle-switch" | _ => icon
  (base.1, base.2, icon)

/-- autoGenerateConfig of the SensorConverter. -/
def autoGenerateConfig (signalkPath : String) (value : JSValue) (meta : Option MetaInfo) :
    SensorConfig :=
  let name := generateFriendlyName signalkPath
  let inferred := inferFromMeta signalkPath value meta
  { enabled := some true
    name := name
    deviceClass := inferred.1
    unit := inferred.2.1
    icon := some inferred.2.2 }

/-! ## SensorConverter: wildcard pattern matching

The source builds a regular expression from a configuration key by
substituting a one-or-more-non-dots class for each star and anchoring
both ends; an unescaped dot in the key matches any character, per
regular-expression semantics.  Configuration keys are assumed to use no
other metacharacter. -/

/-- A token of the compiled pattern. -/
inductive Tok where
  | lit (c : Char)
  | anyChar
  | star
  deriving DecidableEq, Repr

/-- Anchored matching of a token list against a character list. -/
def tokMatch : List Tok → List Char → Bool
  | ps, [] => ps.isEmpty
  | ps, d :: ds =>
    match ps with
    | [] => false
    | .lit c :: ps1 => c == d && tokMatch ps1 ds
    | .anyChar :: ps1 => tokMatch ps1 ds
    | .star :: ps1 => d != '.' && (tokMatch ps1 ds || tokMatch (.star :: ps1) ds)

/-- Compile a configuration key: a star becomes the one-or-more-non-dots
class, a dot the any-character metacharacter, anything else a literal. -/
def compilePattern (s : String) : List Tok :=
  s.data.map fun c => if c = '*' then .star else if c = '.' then .anyChar else .lit c

/-- The anchored regular-expression test of getSensorConfig. -/
def wildcardTest (configPath signalkPath : String) : Bool :=
  tokMatch (compilePattern configPath) signalkPath.data

/-- getSensorConfig of the SensorConverter: exact table entry first,
then the first wildcard entry (in table order) whose pattern matches,
else an auto-generated configuration.  An absent sensors table behaves
as the empty table. -/
def getSensorConfig (sensors : List (String × SensorConfig)) (signalkPath : String)
    (value : JSValue) (meta : Option MetaInfo) : SensorConfig :=
  match sensors.lookup signalkPath with
  | some sc => sc
  | none =>
    match sensors.find? (fun p => strContains p.1 "*" && wildcardTest p.1 signalkPath) with
    | some p => p.2
    | none => autoGenerateConfig signalkPath value meta

/-! ## SensorConverter: rounding and value conversion -/

/-- smartRound of the SensorConverter, on the finite numeric values it
is invoked with: position paths unrounded, pressure paths at two
decimals, temperature, speed, wind speed and distance device classes
and angle units at one decimal, everything else at two decimals. -/
def smartRound (value : DecNum) (signalkPath : String) (sensorConfig : SensorConfig) :
    DecNum :=
  if strContains signalkPath "position" then value
  else if strContains signalkPath "pressure" then value.roundToFixed 2
  else if sensorConfig.deviceClass = some "temperature" ∨
          sensorConfig.deviceClass = some "speed" ∨
          sensorConfig.deviceClass = some "wind_speed" ∨
          sensorConfig.deviceClass = some "distance" ∨
          sensorConfig.unit = some "rad" ∨
          sensorConfig.unit = some "°" then value.roundToFixed 1
  else value.roundToFixed 2

/-! ## The Date model

The datetime branch of convertValue calls toISOString on a Date built
from the value.  For a finite numeric value within the representable
range the result is the UTC ISO rendering of the truncated millisecond
timestamp; an out-of-range or non-finite number gives an invalid date,
whose toISOString throws a RangeError.  The source never reaches this
branch with the other coercible value shapes in the properties under
scrutiny, and the model maps them to the thrown case. -/

/-- Errors a modelled JavaScript expression can throw. -/
inductive JSError where
  | rangeError
  | typeError
  deriving DecidableEq, Repr

/-- Proleptic Gregorian date from days since the epoch (the standard
civil-from-days integer algorithm). -/
def civilFromDays (days : ℤ) : ℤ × ℕ × ℕ :=
  let z := days + 719468
  let era := Int.fdiv z 146097
  let doe := (z - era * 146097).toNat
  let yoe := (doe - doe / 1460 + doe / 36524 - doe / 146096) / 365
  let y := (yoe : ℤ) + era * 400
  let doy := doe - (365 * yoe + yoe / 4 - yoe / 100)
  let mp := (5 * doy + 2) / 153
  let d := doy - (153 * mp + 2) / 5 + 1
  let m := if mp < 10 then mp + 3 else mp - 9
  (if m ≤ 2 then y + 1 else y, m, d)

/-- ISO-8601 UTC rendering of an integer millisecond timestamp:
Date#toISOString on a valid date. -/
def isoOfMillis (ms : ℤ) : String :=
  let days := Int.fdiv ms 86400000
  let msod := (ms - days * 86400000).toNat
  let c := civilFromDays days
  let y := c.1
  let yearStr :=
    if 0 ≤ y ∧ y ≤ 9999 then natToStrPad 4 y.toNat
    else if y < 0 then "-" ++ natToStrPad 6 y.natAbs
    else "+" ++ natToStrPad 6 y.natAbs
  yearStr ++ "-" ++ natToStrPad 2 c.2.1 ++ "-" ++ natToStrPad 2 c.2.2 ++
    "T" ++ natToStrPad 2 (msod / 3600000) ++ ":" ++ natToStrPad 2 (msod / 60000 % 60) ++
    ":" ++ natToStrPad 2 (msod / 1000 % 60) ++ "." ++ natToStrPad 3 (msod % 1000) ++ "Z"

/-- The toISOString call of the datetime branch, with the time-clip
range check of the Date constructor. -/
def jsDateToISO : JSValue → Except JSError String
  | .num (.fin d) =>
    if d.absLe 8640000000000000 then .ok (isoOfMillis d.truncInt)
    else .error .rangeError
  | _ => .error .rangeError

/-- The toFixed call of the position branch: defined on numbers only, a
TypeError on anything else. -/
def jsToFixed6 : JSValue → Except JSError String
  | .num (.fin d) => .ok (d.toFixedStr 6)
  | .num .nan => .ok "NaN"
  | .num .posInf => .ok "Infinity"
  | .num .negInf => .ok "-Infinity"
  | _ => .error .typeError

/-- JSON number serialization used by JSON.stringify in the position
branch: finite numbers render as toString, non-finite as null. -/
def jsonNum : JSValue → String
  | .num (.fin d) => d.render
  | _ => "null"

/-- JSON string serialization (quote and backslash escaping; the
pipeline's strings contain no control characters). -/
def jsonStr (s : String) : String :=
  "\x22" ++ ⟨s.data.flatMap fun c =>
    if c = '\x22' ∨ c = '\\' then ['\\', c] else [c]⟩ ++ "\x22"

/-- Whether a value is undefined (dropped from serialized objects). -/
def jsonIsUndef : JSValue → Bool
  | .undefined => true
  | _ => false

mutual

/-- JSON.stringify on a delta value: undefined members of an object are
omitted, undefined array elements serialize as null. -/
def jsonStringify : JSValue → String
  | .null => "null"
  | .undefined => "null"
  | .bool b => if b then "true" else "false"
  | .num n => jsonNum (.num n)
  | .str s => jsonStr s
  | .obj fields => "\x7b" ++ String.intercalate "," (jsonFields fields) ++ "\x7d"
  | .arr elems => "[" ++ String.intercalate "," (jsonElems elems) ++ "]"

/-- Serialized members of an object, undefined members omitted. -/
def jsonFields : List (String × JSValue) → List String
  | [] => []
  | (k, v) :: rest =>
    if jsonIsUndef v then jsonFields rest
    else (jsonStr k ++ ":" ++ jsonStringify v) :: jsonFields rest

/-- Serialized elements of an array, undefined elements as null. -/
def jsonElems : List JSValue → List String
  | [] => []
  | v :: rest =>
    (if jsonIsUndef v then "null" else jsonStringify v) :: jsonElems rest

end

/-! ## convertValue -/

/-- convertValue of the converged SensorConverter: the null guard, the
position branch, the datetime branch, the numeric branch with its
non-finite guard, raw-mode bypass, meta-driven conversion and smart
rounding, then generic object serialization and stringification. -/
def convertValue (rawMode : Bool) (signalkPath : String) (value : JSValue)
    (sensorConfig : SensorConfig) (meta : Option MetaInfo) : Except JSError String :=
  if value.isNullish then .ok "unknown"
  else
    if strContains signalkPath "position" && value.isObjectType &&
        (value.getField "latitude").truthy && (value.getField "longitude").truthy then
      match jsToFixed6 (value.getField "latitude"), jsToFixed6 (value.getField "longitude") with
      | .ok latStr, .ok lonStr =>
        .ok ("\x7b\x22value\x22:\x22" ++ latStr ++ ", " ++ lonStr ++
          "\x22,\x22latitude\x22:" ++ jsonNum (value.getField "latitude") ++
          ",\x22longitude\x22:" ++ jsonNum (value.getField "longitude") ++ "\x7d")
      | .error e, _ => .error e
      | _, .error e => .error e
    else if strContains signalkPath "datetime" || sensorConfig.deviceClass == some "timestamp" then
      jsDateToISO value
    else
      match value with
      | .num n =>
        if !n.isFinite then .ok "unknown"
        else if rawMode then .ok n.render
        else
          match n with
          | .fin d =>
            let converted :=
              match meta.bind (·.units) with
              | some u =>
                match unitToDeviceClass u with
                | some mapping => mapping.convert d
                | none => d
              | none => d
            .ok (smartRound converted signalkPath sensorConfig).render
          | _ => .ok "unknown"
      | .obj fields => .ok (jsonStringify (.obj fields))
      | .arr elems => .ok (jsonStringify (.arr elems))
      | .bool b => .ok (if b then "true" else "false")
      | .str s => .ok s
      | .null => .ok "null"
      | .undefined => .ok "undefined"

/-! ## HADiscovery -/

/-- A source descriptor already normalized to object shape. -/
structure SourceObj where
  src : Option String
  label : Option String
  type : Option String
  deriving DecidableEq, Repr

/-- A device registry entry (manufacturer and model resolved from the
sources endpoint). -/
structure DeviceInfo where
  manufacturer : String
  model : String
  deriving DecidableEq, Repr

/-- The static bridge configuration consumed by the pipeline core. -/
structure BridgeConfig where
  sensors : List (String × SensorConfig)
  rawMode : Bool
  discoveryRoot : String
  bridgeDeviceId : String
  deriving Repr

/-- The device block of a discovery payload. -/
structure DeviceBlock where
  identifiers : List String
  name : String
  manufacturer : String
  model : String
  viaDevice : String
  deriving DecidableEq, Repr

/-- The discovery descriptor published for a sensor. -/
structure DiscoveryPayload where
  name : String
  uniqueId : String
  stateTopic : String
  device : DeviceBlock
  deviceClass : Option String
  unitOfMeasurement : Option String
  suggestedDisplayPrecision : Option ℕ
  icon : Option String
  stateClass : Option String
  valueTemplate : Option String
  jsonAttributesTopic : Option String
  deriving DecidableEq, Repr

/-- getDeviceId of HADiscovery. -/
def getDeviceId (sourceId : String) : String := "n2k_src_" ++ sourceId

/-- getSensorId of HADiscovery: dots to underscores, stars to the
wildcard token. -/
def getSensorId (signalkPath : String) : String :=
  ⟨signalkPath.data.flatMap fun c =>
    if c = '.' then ['_'] else if c = '*' then "wildcard".data else [c]⟩

/-- getDiscoveryTopic of HADiscovery (the component is always sensor). -/
def getDiscoveryTopic (cfg : BridgeConfig) (signalkPath sourceId : String) : String :=
  cfg.discoveryRoot ++ "/sensor/" ++ getDeviceId sourceId ++ "/" ++
    getSensorId signalkPath ++ "/config"

/-- getStateTopic of HADiscovery. -/
def getStateTopic (cfg : BridgeConfig) (signalkPath sourceId : String) : String :=
  cfg.discoveryRoot ++ "/sensor/" ++ getDeviceId sourceId ++ "/" ++
    getSensorId signalkPath ++ "/state"

/-- DeviceRegistry#getDevice. -/
def regGetDevice (registry : List (String × DeviceInfo)) (sourceId : String) :
    Option DeviceInfo :=
  registry.lookup sourceId

/-- getDeviceName of HADiscovery: registry manufacturer and model when
both are truthy, else a non-default label, else the generic name. -/
def getDeviceName (registry : List (String × DeviceInfo)) (sourceId sourceLabel : String) :
    String :=
  match regGetDevice registry sourceId with
  | some device =>
    if device.manufacturer ≠ "" ∧ device.model ≠ "" then
      device.manufacturer ++ " " ++ device.model
    else if sourceLabel ≠ "" ∧ sourceLabel ≠ "N2K Source " ++ sourceId then sourceLabel
    else "N2K Source " ++ sourceId
  | none =>
    if sourceLabel ≠ "" ∧ sourceLabel ≠ "N2K Source " ++ sourceId then sourceLabel
    else "N2K Source " ++ sourceId

/-- getDeviceManufacturer of HADiscovery via DeviceRegistry. -/
def getDeviceManufacturer (registry : List (String × DeviceInfo)) (sourceId : String) :
    String :=
  match regGetDevice registry sourceId with
  | some device => device.manufacturer
  | none => "NMEA 2000"

/-- getDeviceModel of HADiscovery: a non-default registry model, else a
truthy source type, else the default. -/
def getDeviceModel (registry : List (String × DeviceInfo)) (sourceId : String)
    (source : SourceObj) : String :=
  let regModel :=
    match regGetDevice registry sourceId with
    | some device => device.model
    | none => "NMEA 2000 Device"
  if regModel ≠ "" ∧ regModel ≠ "NMEA 2000 Device" then regModel
  else match source.type with
    | some t => if t ≠ "" then t else "NMEA 2000 Device"
    | none => "NMEA 2000 Device"

/-- publishDiscovery of HADiscovery: the descriptor it publishes (the
retained delivery itself is carried by the event list of the
pipeline). -/
def publishDiscovery (cfg : BridgeConfig) (registry : List (String × DeviceInfo))
    (signalkPath : String) (sensorConfig : SensorConfig)
    (sourceId sourceLabel : String) (source : SourceObj) (meta : Option MetaInfo) :
    DiscoveryPayload :=
  let sensorId := getSensorId signalkPath
  let stateTopic := getStateTopic cfg signalkPath sourceId
  let deviceId := getDeviceId sourceId
  let entityName := if cfg.rawMode then sensorConfig.name ++ " (raw)" else sensorConfig.name
  let uniqueId :=
    if cfg.rawMode then deviceId ++ "_" ++ sensorId ++ "_raw"
    else deviceId ++ "_" ++ sensorId
  { name := entityName
    uniqueId := uniqueId
    stateTopic := stateTopic
    device :=
      { identifiers := [deviceId]
        name := getDeviceName registry sourceId sourceLabel
        manufacturer := getDeviceManufacturer registry sourceId
        model := getDeviceModel registry sourceId source
        viaDevice := cfg.bridgeDeviceId }
    deviceClass :=
      if ¬cfg.rawMode ∧ optTruthy sensorConfig.deviceClass then sensorConfig.deviceClass
      else none
    unitOfMeasurement :=
      if cfg.rawMode then
        match meta with
        | some mi => if optTruthy mi.units then mi.units else none
        | none => none
      else if optTruthy sensorConfig.unit then sensorConfig.unit
      else none
    suggestedDisplayPrecision :=
      if ¬cfg.rawMode ∧ optTruthy sensorConfig.unit ∧ sensorConfig.unit = some "°" then
        some 1
      else none
    icon := if optTruthy sensorConfig.icon then sensorConfig.icon else none
    stateClass :=
      if optTruthy sensorConfig.unit ∧ ¬(strContains signalkPath "position" = true) then
        some "measurement"
      else none
    valueTemplate :=
      if strContains signalkPath "position" then
        some "\x7b\x7b value_json.value \x7d\x7d"
      else none
    jsonAttributesTopic :=
      if strContains signalkPath "position" then some stateTopic else none }

/-! ## Delta normalizer -/

/-- expandObjectPaths of index.js: null and undefined pass through, a
position object with truthy latitude and longitude members stays
intact, a plain object whose every member is a scalar expands into one
tuple per member (unless empty), everything else passes through. -/
def expandObjectPaths (path : String) (value : JSValue) : List (String × JSValue) :=
  match value with
  | .null => [(path, value)]
  | .undefined => [(path, value)]
  | _ =>
    if strContains path "position" && value.isObjectType &&
        (value.getField "latitude").truthy && (value.getField "longitude").truthy then
      [(path, value)]
    else
      match value with
      | .obj fields =>
        if fields.all (fun p => p.2.isSimpleMember) then
          match fields with
          | [] => [(path, value)]
          | _ :: _ => fields.map fun p => (path ++ "." ++ p.1, p.2)
        else [(path, value)]
      | _ => [(path, value)]

/-! ## The inbound message shape -/

/-- One path/value/meta entry of an update. -/
structure SKValue where
  path : String
  value : JSValue
  meta : Option MetaInfo

/-- A source descriptor as found on an update: a bare string label or a
structured object. -/
inductive SourceVal where
  | str (s : String)
  | obj (o : SourceObj)
  deriving DecidableEq, Repr

/-- One update of a delta: a source (the source member, or the dollar
prefixed source member as fallback) and a list of values. -/
structure SKUpdate where
  source : Option SourceVal
  dollarSource : Option SourceVal
  values : List SKValue

/-- One inbound delta message. -/
structure DeltaMsg where
  context : Option String
  updates : List SKUpdate

/-- Truthiness of a source field value. -/
def sourceTruthy : SourceVal → Bool
  | .str s => s ≠ ""
  | .obj _ => true

/-- Normalization of a bare string source into object shape, as done by
the delta handler. -/
def toSourceObj : SourceVal → SourceObj
  | .str s => ⟨some s, some s, none⟩
  | .obj o => o

/-- The source chosen by the delta handler: the source member if truthy,
else the dollar prefixed member if truthy, else an empty object. -/
def effectiveSource (u : SKUpdate) : SourceObj :=
  match u.source with
  | some s =>
    if sourceTruthy s then toSourceObj s
    else
      match u.dollarSource with
      | some t => if sourceTruthy t then toSourceObj t else ⟨none, none, none⟩
      | none => ⟨none, none, none⟩
  | none =>
    match u.dollarSource with
    | some t => if sourceTruthy t then toSourceObj t else ⟨none, none, none⟩
    | none => ⟨none, none, none⟩

/-- JavaScript string disjunction: the left operand unless absent or
empty. -/
def jsStrOr (a : Option String) (b : String) : String :=
  match a with
  | some s => if s = "" then b else s
  | none => b

/-! ## The pipeline state machine -/

/-- The mutable process state of the delta handler: the registry-ready
flag, the discovered-sensors set and the last-publish-time map. -/
structure PState where
  registryReady : Bool
  discovered : List String
  lastPublish : List (String × ℕ)
  deriving DecidableEq, Repr

/-- An outbound publication.  Both carry the sensor key computed at the
publish site alongside the topic they are published to. -/
inductive Event where
  | discovery (sensorKey : String) (topic : String) (payload : DiscoveryPayload)
  | state (sensorKey : String) (topic : String) (payload : String)
  deriving DecidableEq, Repr

/-- The sensor key: discovery and throttle identity of one source and
path pair. -/
def sensorKeyOf (sourceId path : String) : String := sourceId ++ "_" ++ path

/-- The publish throttle window of index.js, in milliseconds. -/
def PUBLISH_THROTTLE_MS : ℕ := 1000

/-- The discovery block of the delta handler: if the sensor key is not
yet in the discovered set, publish the descriptor and add the key. -/
def discoverStep (cfg : BridgeConfig) (registry : List (String × DeviceInfo))
    (sourceId sourceLabel : String) (source : SourceObj) (meta : Option MetaInfo)
    (path : String) (sc : SensorConfig) (st : PState) : PState × List Event :=
  let key := sensorKeyOf sourceId path
  if st.discovered.contains key then (st, [])
  else
    ({ st with discovered := key :: st.discovered },
     [Event.discovery key (getDiscoveryTopic cfg path sourceId)
        (publishDiscovery cfg registry path sc sourceId sourceLabel source meta)])

/-- The throttle-and-publish block of the delta handler: publish the
converted value and record the time when the window allows, with a
missing record reading as time zero; a thrown conversion sets the
abandon flag. -/
def throttleStep (cfg : BridgeConfig) (now : ℕ) (sourceId : String) (meta : Option MetaInfo)
    (path : String) (value : JSValue) (sc : SensorConfig) (st1 : PState)
    (evs1 : List Event) : PState × List Event × Bool :=
  let key := sensorKeyOf sourceId path
  let lastPub := (st1.lastPublish.lookup key).getD 0
  if PUBLISH_THROTTLE_MS ≤ now - lastPub then
    match convertValue cfg.rawMode path value sc meta with
    | .ok haValue =>
      ({ st1 with lastPublish := (key, now) :: st1.lastPublish },
       evs1 ++ [Event.state key (getStateTopic cfg path sourceId) haValue], false)
    | .error _ => (st1, evs1, true)
  else (st1, evs1, false)

/-- Processing of one flattened tuple by the delta handler: resolve the
sensor configuration, skip when disabled, publish discovery at most
once per sensor key, then convert and publish the state subject to the
throttle window.  The third component reports a thrown conversion; the
state already mutated by the tuple is kept, as the try/catch sits
outside the loops. -/
def processTuple (cfg : BridgeConfig) (registry : List (String × DeviceInfo)) (now : ℕ)
    (sourceId sourceLabel : String) (source : SourceObj) (meta : Option MetaInfo)
    (path : String) (value : JSValue) (st : PState) : PState × List Event × Bool :=
  let sc := getSensorConfig cfg.sensors path value none
  if sc.enabled = some false then (st, [], false)
  else
    let d := discoverStep cfg registry sourceId sourceLabel source meta path sc st
    throttleStep cfg now sourceId meta path value sc d.1 d.2

/-- Sequential left-to-right processing of a list of work items, where
an exception in one item propagates out of the enclosing forEach loops:
the state and events accumulated so far are kept, and the remaining
items are abandoned.  This is the common shape of the three nested
forEach loops of the delta handler. -/
def foldShort {α : Type} (f : α → PState → PState × List Event × Bool) :
    List α → PState → PState × List Event × Bool
  | [], st => (st, [], false)
  | a :: rest, st =>
    let r1 := f a st
    if r1.2.2 then r1
    else
      let r2 := foldShort f rest r1.1
      (r2.1, r1.2.1 ++ r2.2.1, r2.2.2)

/-- Sequential processing of the flattened tuples of one value entry,
stopping at the first thrown tuple. -/
def processTuples (cfg : BridgeConfig) (registry : List (String × DeviceInfo)) (now : ℕ)
    (sourceId sourceLabel : String) (source : SourceObj) (meta : Option MetaInfo)
    (tuples : List (String × JSValue)) (st : PState) : PState × List Event × Bool :=
  foldShort
    (fun t => processTuple cfg registry now sourceId sourceLabel source meta t.1 t.2)
    tuples st

/-- Sequential processing of the value entries of one update: each entry
is expanded and its tuples processed; a throw abandons the rest. -/
def processValues (cfg : BridgeConfig) (registry : List (String × DeviceInfo)) (now : ℕ)
    (sourceId sourceLabel : String) (source : SourceObj)
    (values : List SKValue) (st : PState) : PState × List Event × Bool :=
  foldShort
    (fun v => processTuples cfg registry now sourceId sourceLabel source v.meta
      (expandObjectPaths v.path v.value))
    values st

/-- Sequential processing of the updates of one delta: an update without
values is skipped, otherwise its source is resolved and its values
processed; a throw abandons the rest of the batch. -/
def processUpdates (cfg : BridgeConfig) (registry : List (String × DeviceInfo)) (now : ℕ)
    (updates : List SKUpdate) (st : PState) : PState × List Event × Bool :=
  foldShort
    (fun u st =>
      if u.values.isEmpty then (st, ([] : List Event), false)
      else
        let source := effectiveSource u
        let sourceId := jsStrOr source.src (jsStrOr source.label "unknown")
        let sourceLabel := jsStrOr source.label ("N2K Source " ++ sourceId)
        processValues cfg registry now sourceId sourceLabel source u.values st)
    updates st

/-- The delta event handler of index.js: drop the batch before the
device registry is ready, drop absent or empty updates, then process
every update; the surrounding try/catch turns a thrown tuple into a
logged abandonment of the remainder of the batch. -/
def processDelta (cfg : BridgeConfig) (registry : List (String × DeviceInfo)) (st : PState)
    (now : ℕ) (data : Option DeltaMsg) : PState × List Event :=
  if st.registryReady = false then (st, [])
  else
    match data with
    | none => (st, [])
    | some d =>
      if d.updates.isEmpty then (st, [])
      else
        let r := processUpdates cfg registry now d.updates st
        (r.1, r.2.1)

/-- Processing of a sequence of timestamped deltas, in arrival order. -/
def processDeltas (cfg : BridgeConfig) (registry : List (String × DeviceInfo)) :
    List (ℕ × Option DeltaMsg) → PState → PState × List Event
  | [], st => (st, [])
  | (now, d) :: rest, st =>
    let r1 := processDelta cfg registry st now d
    let r2 := processDeltas cfg registry rest r1.1
    (r2.1, r1.2 ++ r2.2)

/-- Number of discovery publications for a sensor key in an event
list. -/
def countDiscovery (key : String) (evs : List Event) : ℕ :=
  evs.countP fun e =>
    match e with
    | .discovery k _ _ => k == key
    | _ => false

/-- Number of state publications for a sensor key in an event list. -/
def countState (key : String) (evs : List Event) : ℕ :=
  evs.countP fun e =>
    match e with
    | .state k _ _ => k == key
    | _ => false

/-- One when the key has been discovered in the state, zero otherwise:
the potential function of the discovery-idempotence argument. -/
def discFlag (key : String) (st : PState) : ℕ :=
  if st.discovered.contains key then 1 else 0

/-- The source identifier the delta handler computes for an update. -/
def updateSourceId (u : SKUpdate) : String :=
  jsStrOr (effectiveSource u).src (jsStrOr (effectiveSource u).label "unknown")

/-- The source label the delta handler computes for an update. -/
def updateSourceLabel (u : SKUpdate) : String :=
  jsStrOr (effectiveSource u).label ("N2K Source " ++ updateSourceId u)

/-- Whether a delta consists entirely of updates and values that flatten
to tuples of the given source and path, with at least one update, every
update non-empty and attributed to the source, and no tuple resolving
to a disabled configuration.  This is the decidable reading of a
sequence of deltas referencing one sensor key. -/
def deltaRefsOk (cfg : BridgeConfig) (sourceId path : String) : Option DeltaMsg → Bool
  | none => false
  | some d =>
    !d.updates.isEmpty &&
    d.updates.all fun u =>
      !u.values.isEmpty && (updateSourceId u == sourceId) &&
      u.values.all fun v =>
        (expandObjectPaths v.path v.value).all fun t =>
          t.1 == path &&
          !((getSensorConfig cfg.sensors t.1 t.2 none).enabled == some false)

/-! ## Concrete fixtures used to instantiate the properties -/

/-- A bridge configuration with an empty sensors table, normal mode. -/
def cfg0 : BridgeConfig := ⟨[], false, "homeassistant", "bridge"⟩

/-- The configuration of cfg0 with raw mode enabled. -/
def cfg0raw : BridgeConfig := ⟨[], true, "homeassistant", "bridge"⟩

/-- A ready pipeline state with nothing discovered or throttled. -/
def st0 : PState := ⟨true, [], []⟩

/-- An explicit temperature sensor configuration. -/
def tempCfg : SensorConfig :=
  ⟨some true, "Water Temperature", some "temperature", some "°C", some "mdi:thermometer"⟩

/-- A sensor configuration that is explicitly disabled. -/
def offCfg : SensorConfig := ⟨some false, "Off", none, none, none⟩

/-- Kelvin unit metadata. -/
def metaK : Option MetaInfo := some ⟨some "K"⟩

/-- A source object with identifier 3. -/
def src3 : SourceObj := ⟨some "3", some "src3", none⟩

/-- The single update of delta1. -/
def upd1 : SKUpdate :=
  ⟨some (.obj src3), none,
   [⟨"environment.water.temperature", .num (.fin ⟨29315, 2⟩), metaK⟩]⟩

/-- A configuration table disabling the path a.b. -/
def cfgDis : BridgeConfig := ⟨[("a.b", offCfg)], false, "homeassistant", "bridge"⟩

/-- An update carrying one value at the disabled path a.b. -/
def updDis : SKUpdate :=
  ⟨some (.obj src3), none, [⟨"a.b", .num (.fin ⟨1, 0⟩), none⟩]⟩

/-- A position object whose latitude is zero (falsy). -/
def posZeroVal : JSValue :=
  .obj [("latitude", .num (.fin ⟨0, 0⟩)), ("longitude", .num (.fin ⟨-1224194, 4⟩))]

/-- An update carrying the zero-latitude position object. -/
def updPos : SKUpdate :=
  ⟨some (.obj src3), none, [⟨"navigation.position", posZeroVal, none⟩]⟩

/-- A one-update delta carrying one temperature value from source 3. -/
def delta1 : DeltaMsg :=
  ⟨some "vessels.self",
   [⟨some (.obj src3), none,
     [⟨"environment.water.temperature", .num (.fin ⟨29315, 2⟩), metaK⟩]⟩]⟩

/-- A two-value batch whose first tuple throws in the converter (NaN at
a datetime path) and whose second tuple is the temperature value. -/
def deltaBad : DeltaMsg :=
  ⟨some "vessels.self",
   [⟨some (.obj src3), none,
     [⟨"navigation.datetime", .num .nan, none⟩,
      ⟨"environment.water.temperature", .num (.fin ⟨29315, 2⟩), metaK⟩]⟩]⟩

/-- A one-update delta carrying the zero-latitude position object. -/
def deltaPos : DeltaMsg :=
  ⟨some "vessels.self", [⟨some (.obj src3), none,
    [⟨"navigation.position", posZeroVal, none⟩]⟩]⟩

/-! ## Helper lemmas: event counting -/

lemma countDiscovery_append (k : String) (l1 l2 : List Event) :
    countDiscovery k (l1 ++ l2) = countDiscovery k l1 + countDiscovery k l2 :=
  List.countP_append _ _ _

lemma countState_append (k : String) (l1 l2 : List Event) :
    countState k (l1 ++ l2) = countState k l1 + countState k l2 :=
  List.countP_append _ _ _

lemma discFlag_le_one (k : String) (st : PState) : discFlag k st ≤ 1 := by
  unfold discFlag; split <;> omega

/-! ## Helper lemmas: singleton event counts -/

lemma countDiscovery_nil (k : String) : countDiscovery k [] = 0 := rfl

lemma countState_nil (k : String) : countState k [] = 0 := rfl

lemma countDiscovery_disc (k k' t : String) (p : DiscoveryPayload) :
    countDiscovery k [Event.discovery k' t p] = if k' = k then 1 else 0 := by
  by_cases h : k' = k <;> simp [countDiscovery, List.countP_cons, h]

lemma countDiscovery_state (k k' t s : String) :
    countDiscovery k [Event.state k' t s] = 0 := by
  simp [countDiscovery, List.countP_cons]

lemma countState_state (k k' t s : String) :
    countState k [Event.state k' t s] = if k' = k then 1 else 0 := by
  by_cases h : k' = k <;> simp [countState, List.countP_cons, h]

lemma countState_disc (k k' t : String) (p : DiscoveryPayload) :
    countState k [Event.discovery k' t p] = 0 := by
  simp [countState, List.countP_cons]

/-! ## Helper lemmas: one tuple -/

section TupleLemmas

variable {cfg : BridgeConfig} {reg : List (String × DeviceInfo)} {now : ℕ}
  {sid slbl : String} {src : SourceObj} {meta : Option MetaInfo}
  {path : String} {v : JSValue} {sc : SensorConfig} {st : PState}

lemma discoverStep_registryReady :
    (discoverStep cfg reg sid slbl src meta path sc st).1.registryReady
      = st.registryReady := by
  simp only [discoverStep]; split <;> rfl

lemma discoverStep_lastPublish :
    (discoverStep cfg reg sid slbl src meta path sc st).1.lastPublish
      = st.lastPublish := by
  simp only [discoverStep]; split <;> rfl

lemma discoverStep_discCount (k : String) :
    countDiscovery k (discoverStep cfg reg sid slbl src meta path sc st).2
        + discFlag k st
      = discFlag k (discoverStep cfg reg sid slbl src meta path sc st).1 := by
  simp only [discoverStep]
  split
  · simp [countDiscovery_nil]
  · next hc =>
    simp only [Bool.not_eq_true] at hc
    rw [countDiscovery_disc]
    by_cases hk : sensorKeyOf sid path = k
    · subst hk
      have hc2 : sensorKeyOf sid path ∉ st.discovered := by simpa using hc
      simp [discFlag, hc2, List.contains_cons]
    · have hk2 : k ≠ sensorKeyOf sid path := Ne.symm hk
      simp [discFlag, List.contains_cons, hk2, hk]

lemma discoverStep_stateCount (k : String) :
    countState k (discoverStep cfg reg sid slbl src meta path sc st).2 = 0 := by
  simp only [discoverStep]
  split
  · rfl
  · exact countState_disc _ _ _ _

lemma discoverStep_contains_frame (k : String) (hk : sensorKeyOf sid path ≠ k) :
    (discoverStep cfg reg sid slbl src meta path sc st).1.discovered.contains k
      = st.discovered.contains k := by
  simp only [discoverStep]
  split
  · rfl
  · have hk2 : k ≠ sensorKeyOf sid path := Ne.symm hk
    simp [List.contains_cons, hk2]

lemma discoverStep_contains_self :
    (discoverStep cfg reg sid slbl src meta path sc st).1.discovered.contains
        (sensorKeyOf sid path) = true := by
  simp only [discoverStep]
  split
  · assumption
  · simp [List.contains_cons]

lemma discoverStep_contains_mono (k : String)
    (h : st.discovered.contains k = true) :
    (discoverStep cfg reg sid slbl src meta path sc st).1.discovered.contains k
      = true := by
  simp only [discoverStep]
  split
  · exact h
  · have h2 : k ∈ st.discovered := by simpa using h
    simp [List.contains_cons, h2]

variable {st1 : PState} {evs1 : List Event}

lemma throttleStep_registryReady :
    (throttleStep cfg now sid meta path v sc st1 evs1).1.registryReady
      = st1.registryReady := by
  simp only [throttleStep]
  split
  · split <;> rfl
  · rfl

lemma throttleStep_discovered :
    (throttleStep cfg now sid meta path v sc st1 evs1).1.discovered
      = st1.discovered := by
  simp only [throttleStep]
  split
  · split <;> rfl
  · rfl

lemma throttleStep_discCount (k : String) :
    countDiscovery k (throttleStep cfg now sid meta path v sc st1 evs1).2.1
      = countDiscovery k evs1 := by
  simp only [throttleStep]
  split
  · split
    · rw [countDiscovery_append, countDiscovery_state]; omega
    · rfl
  · rfl

lemma throttleStep_stateCount (k : String) (hk : sensorKeyOf sid path ≠ k) :
    countState k (throttleStep cfg now sid meta path v sc st1 evs1).2.1
      = countState k evs1 := by
  simp only [throttleStep]
  split
  · split
    · rw [countState_append, countState_state]
      simp [hk]
    · rfl
  · rfl

lemma throttleStep_lastPublish_frame (k : String) (hk : sensorKeyOf sid path ≠ k) :
    (throttleStep cfg now sid meta path v sc st1 evs1).1.lastPublish.lookup k
      = st1.lastPublish.lookup k := by
  simp only [throttleStep]
  split
  · split
    · have hkb : (k == sensorKeyOf sid path) = false :=
        beq_eq_false_iff_ne.mpr fun h => hk h.symm
      simp [List.lookup, hkb]
    · rfl
  · rfl

lemma processTuple_registryReady :
    (processTuple cfg reg now sid slbl src meta path v st).1.registryReady
      = st.registryReady := by
  simp only [processTuple]
  split
  · rfl
  · rw [throttleStep_registryReady, discoverStep_registryReady]

lemma processTuple_discCount (k : String) :
    countDiscovery k (processTuple cfg reg now sid slbl src meta path v st).2.1
        + discFlag k st
      = discFlag k (processTuple cfg reg now sid slbl src meta path v st).1 := by
  simp only [processTuple]
  split
  · simp [countDiscovery_nil]
  · rw [throttleStep_discCount, discoverStep_discCount]
    unfold discFlag
    rw [throttleStep_discovered]

lemma processTuple_contains_mono (k : String)
    (h : st.discovered.contains k = true) :
    (processTuple cfg reg now sid slbl src meta path v st).1.discovered.contains k
      = true := by
  simp only [processTuple]
  split
  · exact h
  · rw [throttleStep_discovered]
    exact discoverStep_contains_mono k h

lemma processTuple_discovers
    (hen : (getSensorConfig cfg.sensors path v none).enabled ≠ some false) :
    (processTuple cfg reg now sid slbl src meta path v st).1.discovered.contains
        (sensorKeyOf sid path) = true := by
  simp only [processTuple]
  split
  · exact absurd (by assumption) hen
  · rw [throttleStep_discovered]
    exact discoverStep_contains_self

lemma processTuple_frame (k : String) (hk : sensorKeyOf sid path ≠ k) :
    countDiscovery k (processTuple cfg reg now sid slbl src meta path v st).2.1 = 0 ∧
    countState k (processTuple cfg reg now sid slbl src meta path v st).2.1 = 0 ∧
    (processTuple cfg reg now sid slbl src meta path v st).1.discovered.contains k
      = st.discovered.contains k ∧
    (processTuple cfg reg now sid slbl src meta path v st).1.lastPublish.lookup k
      = st.lastPublish.lookup k := by
  simp only [processTuple]
  split
  · exact ⟨rfl, rfl, rfl, rfl⟩
  · refine ⟨?_, ?_, ?_, ?_⟩
    · rw [throttleStep_discCount]
      simp only [discoverStep]
      split
      · rfl
      · rw [countDiscovery_disc]
        simp [hk]
    · rw [throttleStep_stateCount k hk]
      exact discoverStep_stateCount k
    · rw [throttleStep_discovered]
      exact discoverStep_contains_frame k hk
    · rw [throttleStep_lastPublish_frame k hk, discoverStep_lastPublish]

end TupleLemmas

/-! ## Helper lemmas: the short-circuit fold -/

section FoldLemmas

variable {α : Type} {f : α → PState → PState × List Event × Bool}

lemma foldShort_registryReady
    (h : ∀ a st, (f a st).1.registryReady = st.registryReady) :
    ∀ (l : List α) (st : PState),
      (foldShort f l st).1.registryReady = st.registryReady := by
  intro l
  induction l with
  | nil => intro st; rfl
  | cons a rest ih =>
    intro st
    simp only [foldShort]
    split
    · exact h a st
    · dsimp only
      rw [ih]
      exact h a st

lemma foldShort_discCount (k : String)
    (h : ∀ a st, countDiscovery k (f a st).2.1 + discFlag k st
      = discFlag k (f a st).1) :
    ∀ (l : List α) (st : PState),
      countDiscovery k (foldShort f l st).2.1 + discFlag k st
        = discFlag k (foldShort f l st).1 := by
  intro l
  induction l with
  | nil => intro st; simp [foldShort, countDiscovery_nil]
  | cons a rest ih =>
    intro st
    simp only [foldShort]
    split
    · exact h a st
    · dsimp only
      rw [countDiscovery_append]
      have h1 := h a st
      have h2 := ih (f a st).1
      omega

lemma foldShort_contains_mono (k : String)
    (h : ∀ a st, st.discovered.contains k = true
      → (f a st).1.discovered.contains k = true) :
    ∀ (l : List α) (st : PState), st.discovered.contains k = true
      → (foldShort f l st).1.discovered.contains k = true := by
  intro l
  induction l with
  | nil => intro st hst; exact hst
  | cons a rest ih =>
    intro st hst
    simp only [foldShort]
    split
    · exact h a st hst
    · dsimp only
      exact ih (f a st).1 (h a st hst)

lemma foldShort_contains_head (k : String)
    (hmono : ∀ a st, st.discovered.contains k = true
      → (f a st).1.discovered.contains k = true)
    (a : α) (rest : List α) (st : PState)
    (hhead : (f a st).1.discovered.contains k = true) :
    (foldShort f (a :: rest) st).1.discovered.contains k = true := by
  simp only [foldShort]
  split
  · exact hhead
  · dsimp only
    exact foldShort_contains_mono k hmono rest (f a st).1 hhead

lemma foldShort_frame (k : String) :
    ∀ (l : List α) (st : PState),
      (∀ a ∈ l, ∀ st', countDiscovery k (f a st').2.1 = 0 ∧
        countState k (f a st').2.1 = 0 ∧
        (f a st').1.discovered.contains k = st'.discovered.contains k ∧
        (f a st').1.lastPublish.lookup k = st'.lastPublish.lookup k) →
      countDiscovery k (foldShort f l st).2.1 = 0 ∧
      countState k (foldShort f l st).2.1 = 0 ∧
      (foldShort f l st).1.discovered.contains k = st.discovered.contains k ∧
      (foldShort f l st).1.lastPublish.lookup k = st.lastPublish.lookup k := by
  intro l
  induction l with
  | nil => intro st _; exact ⟨rfl, rfl, rfl, rfl⟩
  | cons a rest ih =>
    intro st h
    simp only [foldShort]
    split
    · exact h a (List.mem_cons_self a rest) st
    · dsimp only
      obtain ⟨h1, h2, h3, h4⟩ := h a (List.mem_cons_self a rest) st
      obtain ⟨i1, i2, i3, i4⟩ :=
        ih (f a st).1 (fun b hb st' => h b (List.mem_cons_of_mem a hb) st')
      refine ⟨?_, ?_, ?_, ?_⟩
      · rw [countDiscovery_append, h1, i1]
      · rw [countState_append, h2, i2]
      · rw [i3, h3]
      · rw [i4, h4]

lemma foldShort_append (l1 l2 : List α) (st : PState) :
    foldShort f (l1 ++ l2) st =
      (let r1 := foldShort f l1 st
       if r1.2.2 then r1
       else
         let r2 := foldShort f l2 r1.1
         (r2.1, r1.2.1 ++ r2.2.1, r2.2.2)) := by
  induction l1 generalizing st with
  | nil => simp [foldShort]
  | cons a rest ih =>
    simp only [List.cons_append, foldShort]
    split
    · simp only [*]
    · dsimp only
      simp only [List.append_eq]
      rw [ih]
      split
      · next herr => simp [herr]
      · next herr => simp [herr, List.append_assoc]

end FoldLemmas

/-! ## Helper lemmas: the loop levels of the delta handler -/

section PipelineLemmas

variable {cfg : BridgeConfig} {reg : List (String × DeviceInfo)} {now : ℕ}
  {sid slbl : String} {src : SourceObj} {meta : Option MetaInfo} {path : String}

lemma processTuples_registryReady {ts : List (String × JSValue)} {st : PState} :
    (processTuples cfg reg now sid slbl src meta ts st).1.registryReady
      = st.registryReady :=
  foldShort_registryReady (fun _ _ => processTuple_registryReady) ts st

lemma processTuples_discCount (k : String) {ts : List (String × JSValue)} {st : PState} :
    countDiscovery k (processTuples cfg reg now sid slbl src meta ts st).2.1
        + discFlag k st
      = discFlag k (processTuples cfg reg now sid slbl src meta ts st).1 :=
  foldShort_discCount k (fun _ _ => processTuple_discCount _) ts st

lemma processTuples_contains_mono (k : String) {ts : List (String × JSValue)}
    {st : PState} (h : st.discovered.contains k = true) :
    (processTuples cfg reg now sid slbl src meta ts st).1.discovered.contains k
      = true :=
  foldShort_contains_mono k (fun _ _ => processTuple_contains_mono _) ts st h

lemma processTuples_discovers {ts : List (String × JSValue)} {st : PState}
    (hne : ts ≠ [])
    (hall : ∀ t ∈ ts, t.1 = path ∧
      (getSensorConfig cfg.sensors t.1 t.2 none).enabled ≠ some false) :
    (processTuples cfg reg now sid slbl src meta ts st).1.discovered.contains
        (sensorKeyOf sid path) = true := by
  obtain ⟨t, trest, rfl⟩ := List.exists_cons_of_ne_nil hne
  obtain ⟨hp, hen⟩ := hall t (List.mem_cons_self t trest)
  unfold processTuples
  apply foldShort_contains_head _ (fun _ _ => processTuple_contains_mono _)
  rw [← hp]
  exact processTuple_discovers hen

lemma processTuples_frame (k : String) {ts : List (String × JSValue)} {st : PState}
    (hk : ∀ t ∈ ts, sensorKeyOf sid t.1 ≠ k) :
    countDiscovery k (processTuples cfg reg now sid slbl src meta ts st).2.1 = 0 ∧
    countState k (processTuples cfg reg now sid slbl src meta ts st).2.1 = 0 ∧
    (processTuples cfg reg now sid slbl src meta ts st).1.discovered.contains k
      = st.discovered.contains k ∧
    (processTuples cfg reg now sid slbl src meta ts st).1.lastPublish.lookup k
      = st.lastPublish.lookup k :=
  foldShort_frame k ts st fun t ht _ => processTuple_frame k (hk t ht)

lemma expandObjectPaths_ne_nil (p : String) (v : JSValue) :
    expandObjectPaths p v ≠ [] := by
  unfold expandObjectPaths
  cases v <;> simp only
  case obj fields =>
    split
    · simp
    · split
      · split
        · simp
        · simp
      · simp
  all_goals simp

lemma processValues_registryReady {vs : List SKValue} {st : PState} :
    (processValues cfg reg now sid slbl src vs st).1.registryReady
      = st.registryReady :=
  foldShort_registryReady (fun _ _ => processTuples_registryReady) vs st

lemma processValues_discCount (k : String) {vs : List SKValue} {st : PState} :
    countDiscovery k (processValues cfg reg now sid slbl src vs st).2.1
        + discFlag k st
      = discFlag k (processValues cfg reg now sid slbl src vs st).1 :=
  foldShort_discCount k (fun _ _ => processTuples_discCount _) vs st

lemma processValues_contains_mono (k : String) {vs : List SKValue} {st : PState}
    (h : st.discovered.contains k = true) :
    (processValues cfg reg now sid slbl src vs st).1.discovered.contains k = true :=
  foldShort_contains_mono k (fun _ _ => processTuples_contains_mono _) vs st h

lemma processValues_discovers {vs : List SKValue} {st : PState}
    (hne : vs ≠ [])
    (hall : ∀ sv ∈ vs, ∀ t ∈ expandObjectPaths sv.path sv.value, t.1 = path ∧
      (getSensorConfig cfg.sensors t.1 t.2 none).enabled ≠ some false) :
    (processValues cfg reg now sid slbl src vs st).1.discovered.contains
        (sensorKeyOf sid path) = true := by
  obtain ⟨sv, vrest, rfl⟩ := List.exists_cons_of_ne_nil hne
  unfold processValues
  apply foldShort_contains_head _ (fun _ _ => processTuples_contains_mono _)
  exact processTuples_discovers (expandObjectPaths_ne_nil sv.path sv.value)
    (hall sv (List.mem_cons_self sv vrest))

lemma processUpdates_registryReady {us : List SKUpdate} {st : PState} :
    (processUpdates cfg reg now us st).1.registryReady = st.registryReady := by
  unfold processUpdates
  apply foldShort_registryReady
  intro u st'
  dsimp only
  split
  · rfl
  · exact processValues_registryReady

lemma processUpdates_discCount (k : String) {us : List SKUpdate} {st : PState} :
    countDiscovery k (processUpdates cfg reg now us st).2.1 + discFlag k st
      = discFlag k (processUpdates cfg reg now us st).1 := by
  unfold processUpdates
  apply foldShort_discCount
  intro u st'
  dsimp only
  split
  · simp [countDiscovery_nil]
  · exact processValues_discCount _

lemma processUpdates_contains_mono (k : String) {us : List SKUpdate} {st : PState}
    (h : st.discovered.contains k = true) :
    (processUpdates cfg reg now us st).1.discovered.contains k = true := by
  unfold processUpdates
  apply foldShort_contains_mono _ _ _ _ h
  intro u st' h'
  dsimp only
  split
  · exact h'
  · exact processValues_contains_mono _ h'

lemma processUpdates_discovers {us : List SKUpdate} {st : PState} {sid : String}
    (hne : us ≠ [])
    (hall : ∀ u ∈ us, u.values ≠ [] ∧ updateSourceId u = sid ∧
      ∀ sv ∈ u.values, ∀ t ∈ expandObjectPaths sv.path sv.value, t.1 = path ∧
        (getSensorConfig cfg.sensors t.1 t.2 none).enabled ≠ some false) :
    (processUpdates cfg reg now us st).1.discovered.contains
        (sensorKeyOf sid path) = true := by
  obtain ⟨u, urest, rfl⟩ := List.exists_cons_of_ne_nil hne
  obtain ⟨hval, hsid, hrest⟩ := hall u (List.mem_cons_self u urest)
  unfold processUpdates
  apply foldShort_contains_head
  · intro a st' h'
    dsimp only
    split
    · exact h'
    · exact processValues_contains_mono _ h'
  · have he : u.values.isEmpty = false := by
      cases hv : u.values with
      | nil => exact absurd hv hval
      | cons a l => rfl
    dsimp only
    simp only [he, Bool.false_eq_true, if_false]
    rw [← hsid]
    exact processValues_discovers hval hrest

lemma processDelta_registryReady {st : PState} {data : Option DeltaMsg} :
    (processDelta cfg reg st now data).1.registryReady = st.registryReady := by
  unfold processDelta
  split
  · rfl
  · split
    · rfl
    · split
      · rfl
      · exact processUpdates_registryReady

lemma processDelta_discCount (k : String) {st : PState} {data : Option DeltaMsg} :
    countDiscovery k (processDelta cfg reg st now data).2 + discFlag k st
      = discFlag k (processDelta cfg reg st now data).1 := by
  unfold processDelta
  split
  · simp [countDiscovery_nil]
  · split
    · simp [countDiscovery_nil]
    · split
      · simp [countDiscovery_nil]
      · exact processUpdates_discCount _

lemma processDelta_contains_mono (k : String) {st : PState} {data : Option DeltaMsg}
    (h : st.discovered.contains k = true) :
    (processDelta cfg reg st now data).1.discovered.contains k = true := by
  unfold processDelta
  split
  · exact h
  · split
    · exact h
    · split
      · exact h
      · exact processUpdates_contains_mono _ h

/-- Unpacking of the decidable delta-reference predicate into its
propositional parts. -/
lemma deltaRefsOk_unpack {sid : String} {data : Option DeltaMsg}
    (h : deltaRefsOk cfg sid path data = true) :
    ∃ d, data = some d ∧ d.updates ≠ [] ∧
      ∀ u ∈ d.updates, u.values ≠ [] ∧ updateSourceId u = sid ∧
        ∀ sv ∈ u.values, ∀ t ∈ expandObjectPaths sv.path sv.value, t.1 = path ∧
          (getSensorConfig cfg.sensors t.1 t.2 none).enabled ≠ some false := by
  cases data with
  | none => exact absurd h (by simp [deltaRefsOk])
  | some d =>
    refine ⟨d, rfl, ?_, ?_⟩
    · intro hnil
      rw [deltaRefsOk, hnil] at h
      simp at h
    · intro u hu
      rw [deltaRefsOk] at h
      simp only [Bool.and_eq_true, List.all_eq_true] at h
      obtain ⟨-, hall⟩ := h
      obtain ⟨⟨hval, hsid⟩, hrest⟩ := hall u hu
      refine ⟨?_, ?_, ?_⟩
      · intro hnil
        rw [hnil] at hval
        simp at hval
      · exact beq_iff_eq.mp hsid
      · intro sv hsv t ht
        have hand := hrest sv hsv t ht
        simp only [Bool.and_eq_true] at hand
        obtain ⟨hp, hen⟩ := hand
        refine ⟨beq_iff_eq.mp hp, ?_⟩
        intro he
        rw [he] at hen
        simp at hen

lemma processDelta_discovers {st : PState} {sid : String} {data : Option DeltaMsg}
    (hready : st.registryReady = true)
    (href : deltaRefsOk cfg sid path data = true) :
    (processDelta cfg reg st now data).1.discovered.contains
        (sensorKeyOf sid path) = true := by
  obtain ⟨d, rfl, hne, hall⟩ := deltaRefsOk_unpack href
  unfold processDelta
  rw [hready]
  simp only [Bool.true_eq_false, if_false]
  have hne2 : d.updates.isEmpty = false := by
    cases hv : d.updates with
    | nil => exact absurd hv hne
    | cons a l => rfl
  simp only [hne2, Bool.false_eq_true, if_false]
  exact processUpdates_discovers hne hall

lemma processDeltas_discCount (k : String) (ds : List (ℕ × Option DeltaMsg))
    (st : PState) :
    countDiscovery k (processDeltas cfg reg ds st).2 + discFlag k st
      = discFlag k (processDeltas cfg reg ds st).1 := by
  induction ds generalizing st with
  | nil => simp [processDeltas, countDiscovery_nil]
  | cons p rest ih =>
    obtain ⟨pnow, pdata⟩ := p
    simp only [processDeltas]
    rw [countDiscovery_append]
    have h1 : countDiscovery k (processDelta cfg reg st pnow pdata).2 + discFlag k st
        = discFlag k (processDelta cfg reg st pnow pdata).1 :=
      processDelta_discCount k
    have h2 := ih (processDelta cfg reg st pnow pdata).1
    omega

lemma processDeltas_contains_mono (k : String) (ds : List (ℕ × Option DeltaMsg))
    (st : PState) (h : st.discovered.contains k = true) :
    (processDeltas cfg reg ds st).1.discovered.contains k = true := by
  induction ds generalizing st with
  | nil => exact h
  | cons p rest ih =>
    obtain ⟨pnow, pdata⟩ := p
    simp only [processDeltas]
    exact ih _ (processDelta_contains_mono k h)

end PipelineLemmas




/-! ## Helper lemmas: singleton runs and key separation -/

section SingletonLemmas

variable {cfg : BridgeConfig} {reg : List (String × DeviceInfo)} {now : ℕ}
  {sid slbl : String} {src : SourceObj} {meta : Option MetaInfo} {st : PState}

lemma foldShort_singleton_state {α : Type} {f : α → PState → PState × List Event × Bool}
    {a : α} : (foldShort f [a] st).1 = (f a st).1 := by
  simp only [foldShort]
  split <;> rfl

lemma foldShort_singleton_events {α : Type} {f : α → PState → PState × List Event × Bool}
    {a : α} : (foldShort f [a] st).2.1 = (f a st).2.1 := by
  simp only [foldShort]
  split
  · rfl
  · dsimp only
    rw [List.append_nil]

lemma processTuples_singleton_state {p : String} {v : JSValue} :
    (processTuples cfg reg now sid slbl src meta [(p, v)] st).1
      = (processTuple cfg reg now sid slbl src meta p v st).1 := by
  unfold processTuples
  rw [foldShort_singleton_state]

lemma processTuples_singleton_events {p : String} {v : JSValue} :
    (processTuples cfg reg now sid slbl src meta [(p, v)] st).2.1
      = (processTuple cfg reg now sid slbl src meta p v st).2.1 := by
  unfold processTuples
  rw [foldShort_singleton_events]

/-- A delta with one update holding one value entry processes exactly
that entry, under the source identity the handler computes for the
update. -/
lemma processDelta_one_value {ctx : Option String} {u : SKUpdate} {sv : SKValue}
    (hready : st.registryReady = true) (hvals : u.values = [sv]) :
    processDelta cfg reg st now (some ⟨ctx, [u]⟩)
      = ((processTuples cfg reg now (updateSourceId u) (updateSourceLabel u)
            (effectiveSource u) sv.meta (expandObjectPaths sv.path sv.value) st).1,
         (processTuples cfg reg now (updateSourceId u) (updateSourceLabel u)
            (effectiveSource u) sv.meta (expandObjectPaths sv.path sv.value) st).2.1) := by
  unfold processDelta
  rw [hready]
  simp only [Bool.true_eq_false, if_false, List.isEmpty_cons, Bool.false_eq_true]
  unfold processUpdates
  rw [foldShort_singleton_state, foldShort_singleton_events]
  dsimp only
  rw [hvals]
  simp only [List.isEmpty_cons, Bool.false_eq_true, if_false]
  unfold processValues
  rw [foldShort_singleton_state, foldShort_singleton_events]
  rfl

/-- The sensor key of an expanded member path always differs from the
key of the parent path (it is strictly longer). -/
lemma sensorKeyOf_append_ne (sid p seg : String) :
    sensorKeyOf sid (p ++ "." ++ seg) ≠ sensorKeyOf sid p := by
  intro h
  have hlen := congrArg String.length h
  simp only [sensorKeyOf, String.length_append] at hlen
  rw [show ("." : String).length = 1 from rfl,
    show ("_" : String).length = 1 from rfl] at hlen
  omega

/-- The possible shapes of the expansion of a value: it is either the
unchanged single tuple or the member-wise expansion of an object. -/
lemma expandObjectPaths_cases (p : String) (v : JSValue) :
    expandObjectPaths p v = [(p, v)] ∨
    ∃ fields, v = .obj fields ∧
      expandObjectPaths p v = fields.map fun q => (p ++ "." ++ q.1, q.2) := by
  unfold expandObjectPaths
  cases v
  case null => exact Or.inl rfl
  case undefined => exact Or.inl rfl
  case obj fields =>
    simp only
    split
    · exact Or.inl rfl
    · split
      · cases fields with
        | nil => exact Or.inl rfl
        | cons q qs => exact Or.inr ⟨q :: qs, rfl, rfl⟩
      · exact Or.inl rfl
  all_goals simp only; split <;> exact Or.inl rfl

/-- The throttle block publishes the state iff the window has elapsed
since the recorded time (zero when absent), recording the new time when
it publishes and leaving the record alone otherwise. -/
lemma throttleStep_char {path : String} {v : JSValue} {sc : SensorConfig} {s : String}
    {evs1 : List Event} (st1 : PState)
    (hok : convertValue cfg.rawMode path v sc meta = .ok s)
    (hevs : countState (sensorKeyOf sid path) evs1 = 0) :
    countState (sensorKeyOf sid path)
        (throttleStep cfg now sid meta path v sc st1 evs1).2.1
      = (if PUBLISH_THROTTLE_MS ≤
            now - ((st1.lastPublish.lookup (sensorKeyOf sid path)).getD 0)
         then 1 else 0) ∧
    (PUBLISH_THROTTLE_MS ≤
        now - ((st1.lastPublish.lookup (sensorKeyOf sid path)).getD 0) →
      (throttleStep cfg now sid meta path v sc st1 evs1).1.lastPublish.lookup
          (sensorKeyOf sid path) = some now) ∧
    (¬ PUBLISH_THROTTLE_MS ≤
        now - ((st1.lastPublish.lookup (sensorKeyOf sid path)).getD 0) →
      (throttleStep cfg now sid meta path v sc st1 evs1).1.lastPublish.lookup
          (sensorKeyOf sid path) = st1.lastPublish.lookup (sensorKeyOf sid path)) := by
  simp only [throttleStep]
  split
  · next hwin =>
    rw [hok]
    refine ⟨?_, ?_, ?_⟩
    · rw [countState_append, hevs, countState_state]
      simp [hwin]
    · intro _
      simp [List.lookup]
    · intro hno
      exact absurd hwin hno
  · next hwin =>
    refine ⟨?_, ?_, ?_⟩
    · rw [hevs]
    · intro hyes
      exact absurd hyes hwin
    · intro _
      rfl

/-- Characterization of one tuple for the throttle claim: the state
publication count follows the window test against the recorded time,
the record is updated exactly when the publication happens, and the
discovery publication depends only on the discovered set. -/
lemma processTuple_throttle_char {path : String} {v : JSValue} {s : String}
    (hen : (getSensorConfig cfg.sensors path v none).enabled ≠ some false)
    (hok : convertValue cfg.rawMode path v (getSensorConfig cfg.sensors path v none)
      meta = .ok s) :
    countState (sensorKeyOf sid path)
        (processTuple cfg reg now sid slbl src meta path v st).2.1
      = (if PUBLISH_THROTTLE_MS ≤
            now - ((st.lastPublish.lookup (sensorKeyOf sid path)).getD 0)
         then 1 else 0) ∧
    (PUBLISH_THROTTLE_MS ≤
        now - ((st.lastPublish.lookup (sensorKeyOf sid path)).getD 0) →
      (processTuple cfg reg now sid slbl src meta path v st).1.lastPublish.lookup
          (sensorKeyOf sid path) = some now) ∧
    (¬ PUBLISH_THROTTLE_MS ≤
        now - ((st.lastPublish.lookup (sensorKeyOf sid path)).getD 0) →
      (processTuple cfg reg now sid slbl src meta path v st).1.lastPublish.lookup
          (sensorKeyOf sid path) = st.lastPublish.lookup (sensorKeyOf sid path)) ∧
    countDiscovery (sensorKeyOf sid path)
        (processTuple cfg reg now sid slbl src meta path v st).2.1
      = (if st.discovered.contains (sensorKeyOf sid path) then 0 else 1) := by
  simp only [processTuple]
  rw [if_neg hen]
  have hlp : (discoverStep cfg reg sid slbl src meta path
      (getSensorConfig cfg.sensors path v none) st).1.lastPublish = st.lastPublish :=
    discoverStep_lastPublish
  have hevs : countState (sensorKeyOf sid path)
      (discoverStep cfg reg sid slbl src meta path
        (getSensorConfig cfg.sensors path v none) st).2 = 0 :=
    discoverStep_stateCount _
  obtain ⟨h1, h2, h3⟩ := throttleStep_char
      ((discoverStep cfg reg sid slbl src meta path
        (getSensorConfig cfg.sensors path v none) st).1) hok hevs
  rw [hlp] at h1 h2 h3
  refine ⟨h1, h2, h3, ?_⟩
  rw [throttleStep_discCount]
  simp only [discoverStep]
  split
  · next hc => simp [hc, countDiscovery_nil]
  · next hc =>
    simp only [Bool.not_eq_true] at hc
    rw [countDiscovery_disc]
    simp [hc]

end SingletonLemmas

/-! ## The claims -/

/-- C1: for every sequence of at least one inbound delta whose flattened
tuples all reference the same source and path pair (none disabled, the
registry ready, the key not yet discovered), processing the whole
sequence publishes discovery for that sensor key exactly once; the
discovered set only grows, and a key already present is never
re-published. -/
theorem C1_discovery_idempotent (cfg : BridgeConfig) (reg : List (String × DeviceInfo))
    (ds : List (ℕ × Option DeltaMsg)) (st : PState) (sid path : String)
    (hready : st.registryReady = true)
    (hnew : st.discovered.contains (sensorKeyOf sid path) = false)
    (hne : ds ≠ [])
    (hall : ∀ p ∈ ds, deltaRefsOk cfg sid path p.2 = true) :
    countDiscovery (sensorKeyOf sid path) (processDeltas cfg reg ds st).2 = 1 ∧
    (∀ x, st.discovered.contains x = true →
      (processDeltas cfg reg ds st).1.discovered.contains x = true) ∧
    (∀ x, st.discovered.contains x = true →
      countDiscovery x (processDeltas cfg reg ds st).2 = 0) := by
  refine ⟨?_, ?_, ?_⟩
  · obtain ⟨p, rest, rfl⟩ := List.exists_cons_of_ne_nil hne
    obtain ⟨pnow, pdata⟩ := p
    have hkey : (processDelta cfg reg st pnow pdata).1.discovered.contains
        (sensorKeyOf sid path) = true :=
      processDelta_discovers hready
        (hall (pnow, pdata) (List.mem_cons_self _ _))
    have hfinal : (processDeltas cfg reg ((pnow, pdata) :: rest) st).1.discovered.contains
        (sensorKeyOf sid path) = true := by
      simp only [processDeltas]
      exact processDeltas_contains_mono _ rest _ hkey
    have hsum : countDiscovery (sensorKeyOf sid path)
          (processDeltas cfg reg ((pnow, pdata) :: rest) st).2
          + discFlag (sensorKeyOf sid path) st
        = discFlag (sensorKeyOf sid path)
            (processDeltas cfg reg ((pnow, pdata) :: rest) st).1 :=
      processDeltas_discCount (sensorKeyOf sid path) ((pnow, pdata) :: rest) st
    unfold discFlag at hsum
    rw [hnew, hfinal] at hsum
    simpa using hsum
  · intro x hx
    exact processDeltas_contains_mono x ds st hx
  · intro x hx
    have hsum : countDiscovery x (processDeltas cfg reg ds st).2 + discFlag x st
        = discFlag x (processDeltas cfg reg ds st).1 :=
      processDeltas_discCount x ds st
    have hmono : (processDeltas cfg reg ds st).1.discovered.contains x = true :=
      processDeltas_contains_mono x ds st hx
    unfold discFlag at hsum
    rw [hx, hmono] at hsum
    simpa using hsum

/-- Witness for C1: two deltas from source 3 for the same temperature
path produce exactly one discovery publication for the key. -/
theorem C1_discovery_idempotent_witness :
    countDiscovery (sensorKeyOf "3" "environment.water.temperature")
      (processDeltas cfg0 [] [(5000, some delta1), (6500, some delta1)] st0).2 = 1 :=
  (C1_discovery_idempotent cfg0 [] [(5000, some delta1), (6500, some delta1)] st0
    "3" "environment.water.temperature" rfl rfl (by simp) (by decide)).1


/-- C9: before the device registry has finished its initial fetch,
every inbound batch is dropped entirely: no publication occurs and the
state is left unchanged, so nothing is queued for replay. -/
theorem C9_drop_before_registry_ready (cfg : BridgeConfig)
    (reg : List (String × DeviceInfo)) (st : PState) (now : ℕ)
    (data : Option DeltaMsg) (h : st.registryReady = false) :
    processDelta cfg reg st now data = (st, []) := by
  unfold processDelta
  rw [h]
  rfl

/-- Witness for C9: a concrete delta arriving before readiness is
dropped without a trace. -/
theorem C9_drop_before_registry_ready_witness :
    processDelta cfg0 [] ⟨false, [], []⟩ 5000 (some delta1) = (⟨false, [], []⟩, []) :=
  C9_drop_before_registry_ready cfg0 [] ⟨false, [], []⟩ 5000 (some delta1) rfl

/-- C2 counterexample: at input 293.15 with units K and a
temperature-class sensor configuration, the converter output is not
the string 20.0. -/
theorem C2_counterexample :
    convertValue false "environment.water.temperature" (.num (.fin ⟨29315, 2⟩))
      tempCfg metaK ≠ .ok "20.0" := by decide

/-- C2 amended: input 293.15 with units K at a temperature-class sensor
has the Kelvin transform applied exactly once (the published value is
the rendering of the single subtraction 293.15 − 273.15 = 20 after
smart rounding), the rounding is the one-decimal rule of the
temperature device class, and the published state string equals 20:
toFixed yields 20.0 but the Number conversion drops the trailing zero
before stringification. -/
theorem C2_temperature_conversion :
    convertValue false "environment.water.temperature" (.num (.fin ⟨29315, 2⟩))
        tempCfg metaK
      = .ok ((smartRound (DecNum.sub ⟨29315, 2⟩ ⟨27315, 2⟩)
          "environment.water.temperature" tempCfg).render) ∧
    smartRound (DecNum.sub ⟨29315, 2⟩ ⟨27315, 2⟩) "environment.water.temperature"
        tempCfg
      = DecNum.roundToFixed (DecNum.sub ⟨29315, 2⟩ ⟨27315, 2⟩) 1 ∧
    convertValue false "environment.water.temperature" (.num (.fin ⟨29315, 2⟩))
        tempCfg metaK = .ok "20" :=
  ⟨by decide, by decide, by decide⟩

/-- C3 counterexample: a NaN value at a path containing datetime makes
the converter throw a RangeError (the datetime branch precedes the
non-finite guard), rather than returning unknown. -/
theorem C3_counterexample :
    convertValue false "navigation.datetime" (.num .nan)
      (autoGenerateConfig "navigation.datetime" (.num .nan) none) none
      = .error .rangeError := by decide

/-- C3 amended: null and undefined resolve to unknown on every branch
and in both modes; a non-finite number resolves to unknown on every
branch except when the path contains datetime or the configuration
carries the timestamp device class, where the datetime branch throws a
RangeError before the non-finite guard is reached. -/
theorem C3_nonfinite_guard (rawMode : Bool) (path : String) (sc : SensorConfig)
    (meta : Option MetaInfo) (n : JSNum) (hn : n.isFinite = false) :
    convertValue rawMode path .null sc meta = .ok "unknown" ∧
    convertValue rawMode path .undefined sc meta = .ok "unknown" ∧
    convertValue rawMode path (.num n) sc meta =
      (if strContains path "datetime" || sc.deviceClass == some "timestamp"
       then .error .rangeError else .ok "unknown") := by
  refine ⟨rfl, rfl, ?_⟩
  simp only [convertValue, JSValue.isNullish, JSValue.isObjectType, Bool.and_false,
    Bool.false_and, Bool.false_eq_true, if_false]
  split
  · cases n with
    | fin d => simp [JSNum.isFinite] at hn
    | nan => rfl
    | posInf => rfl
    | negInf => rfl
  · cases n with
    | fin d => simp [JSNum.isFinite] at hn
    | nan => rfl
    | posInf => rfl
    | negInf => rfl

/-- Witness for C3: the NaN case at a datetime path and at a plain
path. -/
theorem C3_nonfinite_guard_witness :
    convertValue false "navigation.datetime" .null tempCfg none = .ok "unknown" ∧
    convertValue false "navigation.datetime" .undefined tempCfg none = .ok "unknown" ∧
    convertValue false "navigation.datetime" (.num .nan) tempCfg none =
      (if strContains "navigation.datetime" "datetime" ||
          tempCfg.deviceClass == some "timestamp"
       then .error .rangeError else .ok "unknown") :=
  C3_nonfinite_guard false "navigation.datetime" tempCfg none .nan rfl

/-- C6 counterexample: 293.15 renders as the string 293.15, yet in raw
mode a finite numeric value at a datetime-classified path is not
published as that raw numeric string (the datetime branch precedes the
raw bypass). -/
theorem C6_counterexample :
    DecNum.render ⟨29315, 2⟩ = "293.15" ∧
    convertValue true "navigation.datetime" (.num (.fin ⟨29315, 2⟩))
        (autoGenerateConfig "navigation.datetime" (.num (.fin ⟨29315, 2⟩)) none) none
      ≠ .ok "293.15" :=
  ⟨by decide, by decide⟩

/-- C6 amended: with raw mode active, every finite numeric value at a
path not classified as datetime (by path substring or timestamp device
class) is published as its unmodified numeric rendering, with no
transform and no rounding; and the discovery descriptor built in raw
mode never carries a device-class field. -/
theorem C6_raw_mode_bypass (cfg : BridgeConfig) (reg : List (String × DeviceInfo))
    (path sid slbl : String) (src : SourceObj) (sc : SensorConfig)
    (meta : Option MetaInfo) (d : DecNum)
    (hraw : cfg.rawMode = true)
    (hdt : strContains path "datetime" = false)
    (hts : sc.deviceClass ≠ some "timestamp") :
    convertValue cfg.rawMode path (.num (.fin d)) sc meta = .ok d.render ∧
    (publishDiscovery cfg reg path sc sid slbl src meta).deviceClass = none := by
  constructor
  · have htsb : (sc.deviceClass == some "timestamp") = false :=
      beq_eq_false_iff_ne.mpr hts
    rw [hraw]
    simp only [convertValue, JSValue.isNullish, JSValue.isObjectType, Bool.and_false,
      Bool.false_and, Bool.false_eq_true, if_false, hdt, htsb, Bool.or_self,
      JSNum.isFinite, Bool.not_true, if_true]
    rfl
  · simp only [publishDiscovery, hraw]
    simp

/-- Witness for C6: 293.15 in raw mode at the temperature path is
published as 293.15, and the raw discovery descriptor has no device
class. -/
theorem C6_raw_mode_bypass_witness :
    convertValue cfg0raw.rawMode "environment.water.temperature"
        (.num (.fin ⟨29315, 2⟩)) tempCfg metaK = .ok (DecNum.render ⟨29315, 2⟩) ∧
    (publishDiscovery cfg0raw [] "environment.water.temperature" tempCfg
        "3" "src3" src3 metaK).deviceClass = none :=
  C6_raw_mode_bypass cfg0raw [] "environment.water.temperature" "3" "src3" src3
    tempCfg metaK ⟨29315, 2⟩ rfl (by decide) (by decide)


/-- C5: sensor configuration resolution is deterministic with the
documented order: an exact-path table entry always wins; otherwise the
wildcard entries are tested in declared order and the first match wins,
matching being the anchored substitution of a one-or-more-non-dots
class for the star; the battery-voltage pattern matches both battery
instances and not the current path; and only when nothing matches is a
configuration auto-generated. -/
theorem C5_config_resolution (sensors : List (String × SensorConfig)) (path : String)
    (v : JSValue) (meta : Option MetaInfo) :
    wildcardTest "electrical.batteries.*.voltage" "electrical.batteries.0.voltage"
      = true ∧
    wildcardTest "electrical.batteries.*.voltage" "electrical.batteries.1.voltage"
      = true ∧
    wildcardTest "electrical.batteries.*.voltage" "electrical.batteries.0.current"
      = false ∧
    (∀ sc, sensors.lookup path = some sc →
      getSensorConfig sensors path v meta = sc) ∧
    (∀ pre entry post, sensors = pre ++ entry :: post →
      sensors.lookup path = none →
      (∀ q ∈ pre, (strContains q.1 "*" && wildcardTest q.1 path) = false) →
      (strContains entry.1 "*" && wildcardTest entry.1 path) = true →
      getSensorConfig sensors path v meta = entry.2) ∧
    (sensors.lookup path = none →
      (∀ q ∈ sensors, (strContains q.1 "*" && wildcardTest q.1 path) = false) →
      getSensorConfig sensors path v meta = autoGenerateConfig path v meta) := by
  refine ⟨by decide, by decide, by decide, ?_, ?_, ?_⟩
  · intro sc hsc
    unfold getSensorConfig
    rw [hsc]
  · intro pre entry post hdecomp hnone hpre hentry
    unfold getSensorConfig
    rw [hnone, hdecomp, List.find?_append]
    have hpre2 : pre.find? (fun p => strContains p.1 "*" && wildcardTest p.1 path)
        = none :=
      List.find?_eq_none.mpr fun q hq => by rw [hpre q hq]; simp
    rw [hpre2]
    simp only [List.find?, hentry, Option.none_or]
  · intro hnone hall
    unfold getSensorConfig
    rw [hnone]
    have : sensors.find? (fun p => strContains p.1 "*" && wildcardTest p.1 path)
        = none :=
      List.find?_eq_none.mpr fun q hq => by rw [hall q hq]; simp
    rw [this]

/-- Witness for C5: a table with an exact entry and two overlapping
wildcards resolves the exact path to the exact entry, a sibling battery
path to the first wildcard, and an unrelated path to an auto-generated
configuration. -/
theorem C5_config_resolution_witness :
    getSensorConfig
        [("electrical.batteries.0.voltage", tempCfg),
         ("electrical.batteries.*.voltage", offCfg),
         ("electrical.*.voltage", tempCfg)]
        "electrical.batteries.1.voltage" .null none = offCfg :=
  (C5_config_resolution
      [("electrical.batteries.0.voltage", tempCfg),
       ("electrical.batteries.*.voltage", offCfg),
       ("electrical.*.voltage", tempCfg)]
      "electrical.batteries.1.voltage" .null none).2.2.2.2.1
    [("electrical.batteries.0.voltage", tempCfg)]
    ("electrical.batteries.*.voltage", offCfg)
    [("electrical.*.voltage", tempCfg)] rfl (by decide) (by decide) (by decide)


/-- C4 counterexample: with no prior publication recorded for the key,
a delta arriving at clock value zero is denied publication — the code
treats a missing record as a publication at time zero, so the claimed
biconditional (no record implies allowed) fails. -/
theorem C4_counterexample :
    st0.lastPublish.lookup (sensorKeyOf "3" "environment.water.temperature") = none ∧
    countState (sensorKeyOf "3" "environment.water.temperature")
      (processDelta cfg0 [] st0 0 (some delta1)).2 = 0 :=
  ⟨rfl, by decide⟩

/-- C4 amended: the throttle allows a state publication iff the window
has elapsed since the recorded last-publish time, where a missing
record counts as time zero (so with real clock values the first
publication is always allowed); the time is recorded exactly when the
publication happens; discovery publication depends only on the
discovered set, never on the throttle map; and concretely two updates
200 milliseconds apart yield one state publication while 1200
milliseconds apart yield two. -/
theorem C4_throttle_window (cfg : BridgeConfig) (reg : List (String × DeviceInfo))
    (st : PState) (now : ℕ) (ctx : Option String) (u : SKUpdate)
    (path : String) (value : JSValue) (meta : Option MetaInfo) (s : String)
    (hready : st.registryReady = true)
    (hvals : u.values = [⟨path, value, meta⟩])
    (hexp : expandObjectPaths path value = [(path, value)])
    (hen : (getSensorConfig cfg.sensors path value none).enabled ≠ some false)
    (hok : convertValue cfg.rawMode path value
      (getSensorConfig cfg.sensors path value none) meta = .ok s) :
    countState (sensorKeyOf (updateSourceId u) path)
        (processDelta cfg reg st now (some ⟨ctx, [u]⟩)).2
      = (if PUBLISH_THROTTLE_MS ≤ now -
            ((st.lastPublish.lookup (sensorKeyOf (updateSourceId u) path)).getD 0)
         then 1 else 0) ∧
    (PUBLISH_THROTTLE_MS ≤ now -
        ((st.lastPublish.lookup (sensorKeyOf (updateSourceId u) path)).getD 0) →
      (processDelta cfg reg st now (some ⟨ctx, [u]⟩)).1.lastPublish.lookup
          (sensorKeyOf (updateSourceId u) path) = some now) ∧
    (¬ PUBLISH_THROTTLE_MS ≤ now -
        ((st.lastPublish.lookup (sensorKeyOf (updateSourceId u) path)).getD 0) →
      (processDelta cfg reg st now (some ⟨ctx, [u]⟩)).1.lastPublish.lookup
          (sensorKeyOf (updateSourceId u) path)
        = st.lastPublish.lookup (sensorKeyOf (updateSourceId u) path)) ∧
    countDiscovery (sensorKeyOf (updateSourceId u) path)
        (processDelta cfg reg st now (some ⟨ctx, [u]⟩)).2
      = (if st.discovered.contains (sensorKeyOf (updateSourceId u) path)
         then 0 else 1) ∧
    countState (sensorKeyOf "3" "environment.water.temperature")
      (processDeltas cfg0 [] [(5000, some delta1), (5200, some delta1)] st0).2 = 1 ∧
    countState (sensorKeyOf "3" "environment.water.temperature")
      (processDeltas cfg0 [] [(5000, some delta1), (6200, some delta1)] st0).2 = 2 := by
  rw [processDelta_one_value hready hvals]
  dsimp only
  rw [hexp, processTuples_singleton_events, processTuples_singleton_state]
  obtain ⟨h1, h2, h3, h4⟩ := @processTuple_throttle_char cfg reg now
    (updateSourceId u) (updateSourceLabel u) (effectiveSource u) meta st
    path value s hen hok
  exact ⟨h1, h2, h3, h4, by decide, by decide⟩


/-- Witness for C4: the characterization at a fresh state and clock
value 5000 with the temperature update. -/
theorem C4_throttle_window_witness :
    countState (sensorKeyOf (updateSourceId upd1) "environment.water.temperature")
        (processDelta cfg0 [] st0 5000 (some ⟨some "vessels.self", [upd1]⟩)).2
      = (if PUBLISH_THROTTLE_MS ≤ 5000 -
            ((st0.lastPublish.lookup
              (sensorKeyOf (updateSourceId upd1) "environment.water.temperature")).getD 0)
         then 1 else 0) :=
  (C4_throttle_window cfg0 [] st0 5000 (some "vessels.self") upd1
    "environment.water.temperature" (.num (.fin ⟨29315, 2⟩)) metaK "20"
    rfl rfl rfl (by decide) (by decide)).1

/-- C7 counterexample: in a two-tuple batch whose first tuple throws
(NaN at a datetime path), the second tuple is not processed at all — no
discovery and no state publication occur for it, although the same
tuple alone is fully processed; the failing tuple's own discovery has
already been published. -/
theorem C7_counterexample :
    countDiscovery (sensorKeyOf "3" "navigation.datetime")
      (processDelta cfg0 [] st0 5000 (some deltaBad)).2 = 1 ∧
    countDiscovery (sensorKeyOf "3" "environment.water.temperature")
      (processDelta cfg0 [] st0 5000 (some deltaBad)).2 = 0 ∧
    countState (sensorKeyOf "3" "environment.water.temperature")
      (processDelta cfg0 [] st0 5000 (some deltaBad)).2 = 0 ∧
    countDiscovery (sensorKeyOf "3" "environment.water.temperature")
      (processDelta cfg0 [] st0 5000 (some delta1)).2 = 1 ∧
    countState (sensorKeyOf "3" "environment.water.temperature")
      (processDelta cfg0 [] st0 5000 (some delta1)).2 = 1 :=
  ⟨by decide, by decide, by decide, by decide, by decide⟩

/-- C7 amended: a thrown tuple abandons the remainder of its batch, not
just itself: processing a concatenated tuple list (or value list) runs
the first part, and continues with the second part only when the first
part did not throw, keeping the state and publications accumulated up
to the throw. -/
theorem C7_throw_abandons_batch (cfg : BridgeConfig)
    (reg : List (String × DeviceInfo)) (now : ℕ) (sid slbl : String)
    (src : SourceObj) (meta : Option MetaInfo)
    (ts1 ts2 : List (String × JSValue)) (vs1 vs2 : List SKValue) (st : PState) :
    processTuples cfg reg now sid slbl src meta (ts1 ++ ts2) st =
      (let r1 := processTuples cfg reg now sid slbl src meta ts1 st
       if r1.2.2 then r1
       else
         let r2 := processTuples cfg reg now sid slbl src meta ts2 r1.1
         (r2.1, r1.2.1 ++ r2.2.1, r2.2.2)) ∧
    processValues cfg reg now sid slbl src (vs1 ++ vs2) st =
      (let r1 := processValues cfg reg now sid slbl src vs1 st
       if r1.2.2 then r1
       else
         let r2 := processValues cfg reg now sid slbl src vs2 r1.1
         (r2.1, r1.2.1 ++ r2.2.1, r2.2.2)) :=
  ⟨foldShort_append ts1 ts2 st, foldShort_append vs1 vs2 st⟩

/-- C8: a value at a path whose resolved configuration is disabled
produces no discovery and no state publication for that path, and
leaves the discovered set and the throttle record of that path's sensor
key unchanged, whatever the value. -/
theorem C8_disabled_sensor (cfg : BridgeConfig) (reg : List (String × DeviceInfo))
    (st : PState) (now : ℕ) (ctx : Option String) (u : SKUpdate)
    (path : String) (value : JSValue) (meta : Option MetaInfo)
    (hvals : u.values = [⟨path, value, meta⟩])
    (hdis : (getSensorConfig cfg.sensors path value none).enabled = some false) :
    countDiscovery (sensorKeyOf (updateSourceId u) path)
      (processDelta cfg reg st now (some ⟨ctx, [u]⟩)).2 = 0 ∧
    countState (sensorKeyOf (updateSourceId u) path)
      (processDelta cfg reg st now (some ⟨ctx, [u]⟩)).2 = 0 ∧
    (processDelta cfg reg st now (some ⟨ctx, [u]⟩)).1.discovered.contains
        (sensorKeyOf (updateSourceId u) path)
      = st.discovered.contains (sensorKeyOf (updateSourceId u) path) ∧
    (processDelta cfg reg st now (some ⟨ctx, [u]⟩)).1.lastPublish.lookup
        (sensorKeyOf (updateSourceId u) path)
      = st.lastPublish.lookup (sensorKeyOf (updateSourceId u) path) := by
  by_cases hready : st.registryReady = true
  · rw [processDelta_one_value hready hvals]
    dsimp only
    rcases expandObjectPaths_cases path value with hexp | ⟨fields, hv, hexp⟩
    · rw [hexp, processTuples_singleton_events, processTuples_singleton_state]
      simp only [processTuple]
      rw [if_pos hdis]
      exact ⟨rfl, rfl, rfl, rfl⟩
    · rw [hexp]
      refine processTuples_frame _ ?_
      intro t ht
      obtain ⟨q, hq, rfl⟩ := List.mem_map.mp ht
      exact sensorKeyOf_append_ne (updateSourceId u) path q.1
  · have hf : st.registryReady = false := by
      cases h : st.registryReady
      · rfl
      · exact absurd h hready
    unfold processDelta
    rw [hf]
    exact ⟨rfl, rfl, rfl, rfl⟩

/-- Witness for C8: a disabled path with a concrete numeric value
yields no publications and no state change for its key. -/
theorem C8_disabled_sensor_witness :
    countDiscovery (sensorKeyOf (updateSourceId updDis) "a.b")
      (processDelta cfgDis [] st0 5000 (some ⟨some "vessels.self", [updDis]⟩)).2 = 0 :=
  (C8_disabled_sensor cfgDis [] st0 5000 (some "vessels.self") updDis
    "a.b" (.num (.fin ⟨1, 0⟩)) none rfl (by decide)).1

/-- C10: a position-path object value with a zero (falsy) latitude or
longitude member does not take the position branch: the guard of the
normalizer and converter is false, the object expands into separate
member tuples, and no state publication happens at the original path's
sensor key (where the structured payload would be published). -/
theorem C10_position_zero_truthiness (cfg : BridgeConfig)
    (reg : List (String × DeviceInfo)) (st : PState) (now : ℕ)
    (ctx : Option String) (u : SKUpdate) (path : String)
    (fields : List (String × JSValue)) (a b : DecNum) (meta : Option MetaInfo)
    (hvals : u.values = [⟨path, .obj fields, meta⟩])
    (hlat : fields.lookup "latitude" = some (.num (.fin a)))
    (hlon : fields.lookup "longitude" = some (.num (.fin b)))
    (hzero : a.m = 0 ∨ b.m = 0)
    (hsimple : fields.all (fun q => q.2.isSimpleMember) = true) :
    expandObjectPaths path (.obj fields)
      = fields.map (fun q => (path ++ "." ++ q.1, q.2)) ∧
    (strContains path "position" && (JSValue.obj fields).isObjectType &&
      ((JSValue.obj fields).getField "latitude").truthy &&
      ((JSValue.obj fields).getField "longitude").truthy) = false ∧
    countState (sensorKeyOf (updateSourceId u) path)
      (processDelta cfg reg st now (some ⟨ctx, [u]⟩)).2 = 0 := by
  have hguard : (strContains path "position" && (JSValue.obj fields).isObjectType &&
      ((JSValue.obj fields).getField "latitude").truthy &&
      ((JSValue.obj fields).getField "longitude").truthy) = false := by
    rcases hzero with h0 | h0
    · have hl : ((JSValue.obj fields).getField "latitude").truthy = false := by
        simp [JSValue.getField, hlat, JSValue.truthy, h0]
      rw [hl]
      simp
    · have hl : ((JSValue.obj fields).getField "longitude").truthy = false := by
        simp [JSValue.getField, hlon, JSValue.truthy, h0]
      rw [hl]
      simp
  have hexp : expandObjectPaths path (.obj fields)
      = fields.map (fun q => (path ++ "." ++ q.1, q.2)) := by
    unfold expandObjectPaths
    simp only [hguard, Bool.false_eq_true, if_false, hsimple, if_true]
    cases fields with
    | nil => simp [List.lookup] at hlat
    | cons q qs => rfl
  refine ⟨hexp, hguard, ?_⟩
  by_cases hready : st.registryReady = true
  · rw [processDelta_one_value hready hvals]
    dsimp only
    rw [hexp]
    exact (processTuples_frame _ fun t ht => by
      obtain ⟨q, hq, rfl⟩ := List.mem_map.mp ht
      exact sensorKeyOf_append_ne (updateSourceId u) path q.1).2.1
  · have hf : st.registryReady = false := by
      cases h : st.registryReady
      · rfl
      · exact absurd h hready
    unfold processDelta
    rw [hf]
    rfl

/-- Witness for C10: the concrete zero-latitude position object expands
and publishes nothing at the position path's key. -/
theorem C10_position_zero_truthiness_witness :
    countState (sensorKeyOf (updateSourceId updPos) "navigation.position")
      (processDelta cfg0 [] st0 5000 (some ⟨some "vessels.self", [updPos]⟩)).2 = 0 :=
  (C10_position_zero_truthiness cfg0 [] st0 5000 (some "vessels.self") updPos
    "navigation.position"
    [("latitude", .num (.fin ⟨0, 0⟩)), ("longitude", .num (.fin ⟨-1224194, 4⟩))]
    ⟨0, 0⟩ ⟨-1224194, 4⟩ none rfl rfl rfl (Or.inl rfl) (by decide)).2.2

end SKB
